import Mathlib

/-!
Verification of the falcon-autocrud resource layer (`falcon_autocrud/resource.py`)
against its specification.  The Python code is shallowly embedded: Python
strings are `List Char`, dictionaries are association lists, fallible code
returns `Option`/`Except`, and uncaught Python exceptions are explicit error
values.  Each definition is annotated with the source function it embeds.
-/

set_option linter.unusedVariables false

/-! ## Python-style string primitives -/

/-- A Python `str` as a list of characters. -/
abbrev PyStr := List Char

/-- The ASCII digit character for a single decimal digit. -/
def digitChar (d : Nat) : Char := Char.ofNat (48 + d)

/-- Reads one ASCII decimal digit. -/
def parseDigit (c : Char) : Option Nat :=
  if 48 ≤ c.toNat ∧ c.toNat ≤ 57 then some (c.toNat - 48) else none

/-- Two-digit zero-padded decimal rendering, as produced by the strftime
directives `%m` `%d` `%H` `%M` `%S` (whose values are below 100). -/
def pad2 (n : Nat) : List Char := [digitChar (n / 10 % 10), digitChar (n % 10)]

/-- Four-digit zero-padded decimal rendering, as produced by `%Y`
(datetime years are below 10000). -/
def pad4 (n : Nat) : List Char :=
  [digitChar (n / 1000 % 10), digitChar (n / 100 % 10),
   digitChar (n / 10 % 10), digitChar (n % 10)]

/-- Six-digit zero-padded decimal rendering, as produced by the fractional
part of `time.isoformat()` (microseconds are below 1000000). -/
def pad6 (n : Nat) : List Char :=
  [digitChar (n / 100000 % 10), digitChar (n / 10000 % 10), digitChar (n / 1000 % 10),
   digitChar (n / 100 % 10), digitChar (n / 10 % 10), digitChar (n % 10)]

/-- Python `str.split(sep)` for a one-character separator. -/
def pySplitChar (sep : Char) : List Char → List (List Char)
  | [] => [[]]
  | c :: rest =>
    if c = sep then [] :: pySplitChar sep rest
    else
      match pySplitChar sep rest with
      | [] => [[c]]
      | p :: ps => (c :: p) :: ps

/-- Python `int(s)` on the strings reaching the Time decode path: succeeds
exactly on non-empty all-digit strings (a fractional-seconds string such as
`"05.500000"` makes `int` raise `ValueError`). -/
def pyInt (s : List Char) : Option Nat :=
  if s = [] then none
  else
    s.foldl
      (fun acc c =>
        match acc, parseDigit c with
        | some n, some d => some (n * 10 + d)
        | _, _ => none)
      (some 0)

theorem parseDigit_digitChar : ∀ d : Nat, d < 10 → parseDigit (digitChar d) = some d := by
  decide

theorem digitChar_ne_colon : ∀ d : Nat, d < 10 → digitChar d ≠ ':' := by
  decide

theorem colon_not_mem_pad2 (n : Nat) : ':' ∉ pad2 n := by
  have h1 : n / 10 % 10 < 10 := Nat.mod_lt _ (by omega)
  have h2 : n % 10 < 10 := Nat.mod_lt _ (by omega)
  simp only [pad2, List.mem_cons, List.not_mem_nil, or_false]
  intro h
  rcases h with h | h
  · exact digitChar_ne_colon _ h1 h.symm
  · exact digitChar_ne_colon _ h2 h.symm

theorem pySplitChar_no_sep {sep : Char} {xs : List Char} (h : sep ∉ xs) :
    pySplitChar sep xs = [xs] := by
  induction xs with
  | nil => rfl
  | cons c cs ih =>
    have hc : c ≠ sep := fun hcs => h (hcs ▸ List.mem_cons_self c cs)
    have hcs : sep ∉ cs := fun hm => h (List.mem_cons_of_mem c hm)
    simp only [pySplitChar, if_neg hc, ih hcs]

theorem pySplitChar_append_sep {sep : Char} {xs : List Char} (h : sep ∉ xs) (ys : List Char) :
    pySplitChar sep (xs ++ sep :: ys) = xs :: pySplitChar sep ys := by
  induction xs with
  | nil => simp [pySplitChar]
  | cons c cs ih =>
    have hc : c ≠ sep := fun hcs => h (hcs ▸ List.mem_cons_self c cs)
    have hcs : sep ∉ cs := fun hm => h (List.mem_cons_of_mem c hm)
    simp [pySplitChar, if_neg hc, ih hcs]

theorem pyInt_pad2 {n : Nat} (h : n < 100) : pyInt (pad2 n) = some n := by
  have h1 : n / 10 % 10 < 10 := Nat.mod_lt _ (by omega)
  have h2 : n % 10 < 10 := Nat.mod_lt _ (by omega)
  simp only [pyInt, pad2, List.foldl, parseDigit_digitChar _ h1, parseDigit_digitChar _ h2,
    reduceCtorEq, if_false]
  congr 1
  omega

/-! ## Fixed-width numeral parsers (the strptime directives on their
zero-padded canonical inputs) -/

/-- Reads exactly two decimal digits. -/
def parse2 : List Char → Option (Nat × List Char)
  | a :: b :: rest =>
    match parseDigit a, parseDigit b with
    | some x, some y => some (x * 10 + y, rest)
    | _, _ => none
  | _ => none

/-- Reads exactly four decimal digits. -/
def parse4 : List Char → Option (Nat × List Char)
  | a :: b :: c :: d :: rest =>
    match parseDigit a, parseDigit b, parseDigit c, parseDigit d with
    | some x, some y, some z, some w => some (((x * 10 + y) * 10 + z) * 10 + w, rest)
    | _, _, _, _ => none
  | _ => none

/-- Consumes one expected literal character. -/
def expect (c : Char) : List Char → Option (List Char)
  | x :: rest => if x = c then some rest else none
  | [] => none

theorem parse2_pad2 {n : Nat} (h : n < 100) (rest : List Char) :
    parse2 (pad2 n ++ rest) = some (n, rest) := by
  have h1 : n / 10 % 10 < 10 := Nat.mod_lt _ (by omega)
  have h2 : n % 10 < 10 := Nat.mod_lt _ (by omega)
  simp only [pad2, List.cons_append, List.nil_append, parse2,
    parseDigit_digitChar _ h1, parseDigit_digitChar _ h2]
  congr 2
  omega

theorem parse4_pad4 {n : Nat} (h : n < 10000) (rest : List Char) :
    parse4 (pad4 n ++ rest) = some (n, rest) := by
  have h1 : n / 1000 % 10 < 10 := Nat.mod_lt _ (by omega)
  have h2 : n / 100 % 10 < 10 := Nat.mod_lt _ (by omega)
  have h3 : n / 10 % 10 < 10 := Nat.mod_lt _ (by omega)
  have h4 : n % 10 < 10 := Nat.mod_lt _ (by omega)
  simp only [pad4, List.cons_append, List.nil_append, parse4,
    parseDigit_digitChar _ h1, parseDigit_digitChar _ h2,
    parseDigit_digitChar _ h3, parseDigit_digitChar _ h4]
  congr 2
  omega

theorem expect_cons (c : Char) (s : List Char) : expect c (c :: s) = some s := by
  simp [expect]

theorem parse2_pad2_nil {n : Nat} (h : n < 100) : parse2 (pad2 n) = some (n, []) := by
  have h2 := parse2_pad2 h []
  rwa [List.append_nil] at h2

theorem ite_true_bool {α : Sort _} (a b : α) : (if true = true then a else b) = a := rfl

theorem ite_false_bool {α : Sort _} (a b : α) : (if false = true then a else b) = b := rfl

/-! ## Date/time values (Python `datetime.date`, `datetime.time`,
`datetime.datetime`, naive) -/

structure PyDate where
  year : Nat
  month : Nat
  day : Nat
deriving DecidableEq

structure PyTime where
  hour : Nat
  minute : Nat
  second : Nat
  microsecond : Nat
deriving DecidableEq

structure PyDateTime where
  year : Nat
  month : Nat
  day : Nat
  hour : Nat
  minute : Nat
  second : Nat
  microsecond : Nat
deriving DecidableEq

def isLeapYear (y : Nat) : Bool := (y % 4 == 0 && y % 100 != 0) || y % 400 == 0

def daysInMonth (y m : Nat) : Nat :=
  if m = 2 then (if isLeapYear y then 29 else 28)
  else if m = 4 ∨ m = 6 ∨ m = 9 ∨ m = 11 then 30
  else 31

theorem daysInMonth_le (y m : Nat) : daysInMonth y m ≤ 31 := by
  unfold daysInMonth
  split
  · split <;> omega
  · split <;> omega

/-- The constructor constraints of `datetime.date`. -/
def ValidDate (d : PyDate) : Prop :=
  1 ≤ d.year ∧ d.year ≤ 9999 ∧ 1 ≤ d.month ∧ d.month ≤ 12 ∧
    1 ≤ d.day ∧ d.day ≤ daysInMonth d.year d.month

instance (d : PyDate) : Decidable (ValidDate d) := by
  unfold ValidDate; infer_instance

/-- The constructor constraints of `datetime.time`. -/
def ValidTime (t : PyTime) : Prop :=
  t.hour < 24 ∧ t.minute < 60 ∧ t.second < 60 ∧ t.microsecond < 1000000

instance (t : PyTime) : Decidable (ValidTime t) := by
  unfold ValidTime; infer_instance

/-- The constructor constraints of `datetime.datetime`. -/
def ValidDateTime (dt : PyDateTime) : Prop :=
  ValidDate ⟨dt.year, dt.month, dt.day⟩ ∧
    dt.hour < 24 ∧ dt.minute < 60 ∧ dt.second < 60 ∧ dt.microsecond < 1000000

instance (dt : PyDateTime) : Decidable (ValidDateTime dt) := by
  unfold ValidDateTime; infer_instance

/-! ## The attribute codec (BaseResource.serialize value formatting and the
deserialize type dispatch, resource.py lines 152-194 and 601-615) -/

/-- Embeds `value.strftime('%Y-%m-%d')` from `BaseResource.serialize`. -/
def encodeDate (d : PyDate) : List Char :=
  pad4 d.year ++ '-' :: (pad2 d.month ++ '-' :: pad2 d.day)

/-- Embeds `datetime.strptime(value, '%Y-%m-%d').date()` from the Date branch
of `deserialize`, on the canonical zero-padded wire format (strptime also
tolerates unpadded field widths; no claim exercises those inputs).  strptime
validates field ranges and the calendar via the date constructor. -/
def decodeDate (s : List Char) : Option PyDate :=
  (parse4 s).bind fun y1 =>
  (expect '-' y1.2).bind fun s2 =>
  (parse2 s2).bind fun m1 =>
  (expect '-' m1.2).bind fun s4 =>
  (parse2 s4).bind fun d1 =>
  if d1.2 = [] ∧ 1 ≤ y1.1 ∧ 1 ≤ m1.1 ∧ m1.1 ≤ 12 ∧ 1 ≤ d1.1 ∧
      d1.1 ≤ daysInMonth y1.1 m1.1 then
    some ⟨y1.1, m1.1, d1.1⟩
  else none

/-- Embeds `value.strftime('%Y-%m-%dT%H:%M:%SZ')` (and the naive variant
without the trailing Z) from `BaseResource.serialize`.  Note that the format
string carries no microsecond directive, so the sub-second component of the
value is dropped on the wire. -/
def encodeDateTime (naive : Bool) (dt : PyDateTime) : List Char :=
  pad4 dt.year ++ '-' :: (pad2 dt.month ++ '-' :: (pad2 dt.day ++ 'T' ::
    (pad2 dt.hour ++ ':' :: (pad2 dt.minute ++ ':' :: (pad2 dt.second ++
      (if naive then [] else ['Z']))))))

/-- Embeds `datetime.strptime(value, '%Y-%m-%dT%H:%M:%SZ')` (and the naive
variant) from the DateTime branch of `deserialize`, on the canonical
zero-padded wire format.  The parsed datetime always has microsecond 0. -/
def decodeDateTime (naive : Bool) (s : List Char) : Option PyDateTime :=
  (parse4 s).bind fun y1 =>
  (expect '-' y1.2).bind fun s2 =>
  (parse2 s2).bind fun mo1 =>
  (expect '-' mo1.2).bind fun s4 =>
  (parse2 s4).bind fun d1 =>
  (expect 'T' d1.2).bind fun s6 =>
  (parse2 s6).bind fun h1 =>
  (expect ':' h1.2).bind fun s8 =>
  (parse2 s8).bind fun mi1 =>
  (expect ':' mi1.2).bind fun s10 =>
  (parse2 s10).bind fun se1 =>
  (if naive then some se1.2 else expect 'Z' se1.2).bind fun s12 =>
  if s12 = [] ∧ 1 ≤ y1.1 ∧ 1 ≤ mo1.1 ∧ mo1.1 ≤ 12 ∧ 1 ≤ d1.1 ∧
      d1.1 ≤ daysInMonth y1.1 mo1.1 ∧ h1.1 < 24 ∧ mi1.1 < 60 ∧ se1.1 < 60 then
    some ⟨y1.1, mo1.1, d1.1, h1.1, mi1.1, se1.1, 0⟩
  else none

/-- Embeds `value.isoformat()` for a naive time from `BaseResource.serialize`:
`HH:MM:SS`, with `.ffffff` appended when the microsecond component is
non-zero. -/
def isoformatTime (t : PyTime) : List Char :=
  pad2 t.hour ++ ':' :: (pad2 t.minute ++ ':' :: (pad2 t.second ++
    (if t.microsecond = 0 then [] else '.' :: pad6 t.microsecond)))

/-- Embeds the Time branch of `deserialize`:
`hour, minute, second = value.split(':')` followed by
`time(int(hour), int(minute), int(second))`.  An unpack of anything but three
parts, a non-integer-literal part, or out-of-range constructor arguments raise
ValueError in Python, modelled as `none`. -/
def decodeTime (s : List Char) : Option PyTime :=
  match pySplitChar ':' s with
  | [h, m, sec] =>
    match pyInt h, pyInt m, pyInt sec with
    | some hh, some mm, some ss =>
      if hh < 24 ∧ mm < 60 ∧ ss < 60 then some ⟨hh, mm, ss, 0⟩ else none
    | _, _, _ => none
  | _ => none

theorem decodeDate_encodeDate {d : PyDate} (h : ValidDate d) :
    decodeDate (encodeDate d) = some d := by
  obtain ⟨y, mo, dy⟩ := d
  simp only [ValidDate] at h
  obtain ⟨h1, h2, h3, h4, h5, h6⟩ := h
  have h31 := daysInMonth_le y mo
  simp only [encodeDate, decodeDate]
  rw [parse4_pad4 (by omega), Option.some_bind, expect_cons, Option.some_bind,
    parse2_pad2 (by omega), Option.some_bind, expect_cons, Option.some_bind,
    parse2_pad2_nil (by omega), Option.some_bind]
  exact if_pos ⟨rfl, h1, h3, h4, h5, h6⟩

theorem decodeDateTime_encodeDateTime {dt : PyDateTime} (naive : Bool)
    (h : ValidDateTime dt) (h0 : dt.microsecond = 0) :
    decodeDateTime naive (encodeDateTime naive dt) = some dt := by
  obtain ⟨y, mo, dy, hh, mi, se, us⟩ := dt
  change us = 0 at h0
  subst h0
  simp only [ValidDateTime, ValidDate] at h
  obtain ⟨⟨h1, h2, h3, h4, h5, h6⟩, h7, h8, h9, _⟩ := h
  have h31 := daysInMonth_le y mo
  cases naive with
  | true =>
    simp only [encodeDateTime, decodeDateTime]
    rw [if_true, List.append_nil]
    rw [parse4_pad4 (by omega), Option.some_bind, expect_cons, Option.some_bind,
      parse2_pad2 (by omega), Option.some_bind, expect_cons, Option.some_bind,
      parse2_pad2 (by omega), Option.some_bind, expect_cons, Option.some_bind,
      parse2_pad2 (by omega), Option.some_bind, expect_cons, Option.some_bind,
      parse2_pad2 (by omega), Option.some_bind, expect_cons, Option.some_bind,
      parse2_pad2_nil (by omega), Option.some_bind, if_true, Option.some_bind]
    exact if_pos ⟨rfl, h1, h3, h4, h5, h6, h7, h8, h9⟩
  | false =>
    simp only [encodeDateTime, decodeDateTime]
    rw [ite_false_bool]
    rw [parse4_pad4 (by omega), Option.some_bind, expect_cons, Option.some_bind,
      parse2_pad2 (by omega), Option.some_bind, expect_cons, Option.some_bind,
      parse2_pad2 (by omega), Option.some_bind, expect_cons, Option.some_bind,
      parse2_pad2 (by omega), Option.some_bind, expect_cons, Option.some_bind,
      parse2_pad2 (by omega), Option.some_bind, expect_cons, Option.some_bind,
      parse2_pad2 (by omega), Option.some_bind, ite_false_bool, expect_cons,
      Option.some_bind]
    exact if_pos ⟨rfl, h1, h3, h4, h5, h6, h7, h8, h9⟩

theorem decodeTime_isoformatTime {t : PyTime} (h : ValidTime t)
    (h0 : t.microsecond = 0) :
    decodeTime (isoformatTime t) = some t := by
  obtain ⟨hh, mm, ss, us⟩ := t
  change us = 0 at h0
  subst h0
  simp only [ValidTime] at h
  obtain ⟨h1, h2, h3, _⟩ := h
  rw [isoformatTime, if_pos rfl, List.append_nil, decodeTime,
    pySplitChar_append_sep (colon_not_mem_pad2 hh),
    pySplitChar_append_sep (colon_not_mem_pad2 mm),
    pySplitChar_no_sep (colon_not_mem_pad2 ss)]
  simp only [pyInt_pad2 (show hh < 100 by omega),
    pyInt_pad2 (show mm < 100 by omega),
    pyInt_pad2 (show ss < 100 by omega)]
  exact if_pos ⟨h1, h2, h3⟩

/-! ## Entity descriptors (SQLAlchemy mapped classes as seen through
`inspect`, `getattr`, and declarative class attributes) -/

abbrev AttrName := String

/-- Scalar column types distinguished by the deserialize dispatch.  Geometry
branches are inactive when geoalchemy2 is not importable (`support_geo` is
then False), so geometry columns fall into the untyped bucket. -/
inductive ColType
  | dateTimeCol
  | dateCol
  | timeCol
  | otherCol
deriving DecidableEq

/-- What a mapped attribute of `inspect(model).attrs` is. -/
inductive MappedAttr
  | column (ty : ColType)
  | relationship (uselist : Bool) (target : String)
deriving DecidableEq

/-- An entity descriptor: the parts of a SQLAlchemy declarative class the
resource layer consults.  `props` are python `property` class attributes and
`others` are the remaining class attributes that are not mapped attributes
(every declarative class has at least `metadata`).  The class is assumed to
have exactly one primary-key column, named `pkName` (`identify_pk` fails on
any other shape). -/
structure Model where
  tablename : String
  pkName : AttrName
  columns : List (AttrName × ColType)
  relationships : List (AttrName × Bool × String)
  props : List AttrName
  others : List AttrName
deriving DecidableEq

/-- Embeds `mapper.columns[key]` (`none` is a python KeyError). -/
def columnOf (m : Model) (k : AttrName) : Option ColType := m.columns.lookup k

/-- Embeds `mapper.relationships[key]` (`none` is a python KeyError). -/
def relationshipOf (m : Model) (k : AttrName) : Option (Bool × String) :=
  m.relationships.lookup k

/-- Embeds `inspect(model).attrs[key]`: defined only for mapped columns and
relationships; `none` is an uncaught python KeyError. -/
def mapperAttr (m : Model) (k : AttrName) : Option MappedAttr :=
  match columnOf m k with
  | some ty => some (MappedAttr.column ty)
  | none =>
    match relationshipOf m k with
    | some r => some (MappedAttr.relationship r.1 r.2)
    | none => none

/-- Embeds `getattr(model, key, None) is not None`: mapped attributes are
class attributes, as are python properties and the other declarative class
attributes. -/
def modelGetattr (m : Model) (k : AttrName) : Bool :=
  (mapperAttr m k).isSome || m.props.contains k || m.others.contains k

/-- Embeds `isinstance(getattr(model, key, None), property)`. -/
def isProp (m : Model) (k : AttrName) : Bool := m.props.contains k

/-- Outcomes of a handler run that abort it: the HTTP errors the code raises
deliberately, and the uncaught python exceptions (KeyError, NameError,
TypeError, AttributeError, ValueError, IndexError) that surface as plain
server faults. -/
inductive Err
  | badRequest (detail : String)
  | internalServerError
  | notFound
  | conflict (detail : String)
  | methodNotAllowed
  | keyError
  | nameError
  | typeError
  | attributeError
  | valueError
  | indexError
  | multipleResultsFound
deriving DecidableEq

/-! ## The parameter filter compiler (BaseResource.filter_by_params,
resource.py lines 109-150) -/

/-- Comparison operators of compiled filter clauses. -/
inductive FilterOp
  | eqOp
  | inOp
  | isNullOp
  | isNotNullOp
  | startswithOp
  | containsOp
  | ltOp
  | lteOp
  | gtOp
  | gteOp
deriving DecidableEq

/-- One compiled predicate clause, as passed to a `.filter(...)` call. -/
structure Clause where
  attr : AttrName
  op : FilterOp
  value : String
deriving DecidableEq

/-- Python `key.startswith('__')`. -/
def startsWithDunder (s : String) : Bool := ['_', '_'].isPrefixOf s.data

/-- Python `str.split('__')`, scanning greedily from the left. -/
def splitDunderChars : List Char → List (List Char)
  | [] => [[]]
  | '_' :: '_' :: xs => [] :: splitDunderChars xs
  | x :: xs =>
    match splitDunderChars xs with
    | [] => [[x]]
    | p :: ps => (x :: p) :: ps

/-- Python `filter_key.split('__')`, each part read back as a string. -/
def splitDunder (s : String) : List String :=
  (splitDunderChars s.data).map List.asString

instance {ε α : Type _} [DecidableEq ε] [DecidableEq α] : DecidableEq (Except ε α) := fun x y =>
  match x, y with
  | Except.ok a, Except.ok b =>
    if h : a = b then Decidable.isTrue (congrArg Except.ok h)
    else Decidable.isFalse (fun hc => h (Except.ok.inj hc))
  | Except.error e, Except.error f =>
    if h : e = f then Decidable.isTrue (congrArg Except.error h)
    else Decidable.isFalse (fun hc => h (Except.error.inj hc))
  | Except.ok _, Except.error _ => Decidable.isFalse (fun hc => Except.noConfusion hc)
  | Except.error _, Except.ok _ => Decidable.isFalse (fun hc => Except.noConfusion hc)

/-- Embeds the comparison dispatch of `BaseResource.filter_by_params`
(lines 127-149): each known operator appends one clause via `.filter(...)`;
the `null` operator inverts to a not-null check when the value is `"0"`; an
unknown operator raises HTTPBadRequest.  The explicit suffix spelling `=`
(reachable through a key such as `age__=`) is accepted by the first branch. -/
def opResult (cs : List Clause) (key comparison value : String) :
    Except Err (List Clause) :=
  if comparison = "=" then Except.ok (cs ++ [⟨key, FilterOp.eqOp, value⟩])
  else if comparison = "in" then Except.ok (cs ++ [⟨key, FilterOp.inOp, value⟩])
  else if comparison = "null" then
    (if value ≠ "0" then Except.ok (cs ++ [⟨key, FilterOp.isNullOp, value⟩])
     else Except.ok (cs ++ [⟨key, FilterOp.isNotNullOp, value⟩]))
  else if comparison = "startswith" then
    Except.ok (cs ++ [⟨key, FilterOp.startswithOp, value⟩])
  else if comparison = "contains" then
    Except.ok (cs ++ [⟨key, FilterOp.containsOp, value⟩])
  else if comparison = "lt" then Except.ok (cs ++ [⟨key, FilterOp.ltOp, value⟩])
  else if comparison = "lte" then Except.ok (cs ++ [⟨key, FilterOp.lteOp, value⟩])
  else if comparison = "gt" then Except.ok (cs ++ [⟨key, FilterOp.gtOp, value⟩])
  else if comparison = "gte" then Except.ok (cs ++ [⟨key, FilterOp.gteOp, value⟩])
  else Except.error (Err.badRequest "An attribute provided for filtering is invalid")

/-- Embeds one iteration of `BaseResource.filter_by_params` (lines 110-149):
reserved double-underscore keys are skipped; the key is split on `__` into a
base attribute and at most one comparison suffix; the base must resolve on
the model class and be a mapped scalar column; the comparison selects the
clause appended to the query by `.filter(...)`. -/
def applyFilterKey (m : Model) (cs : List Clause) (filterKey value : String) :
    Except Err (List Clause) :=
  if startsWithDunder filterKey then Except.ok cs
  else
    let filterParts := splitDunder filterKey
    let key := filterParts.headD ""
    (if filterParts.length = 1 then Except.ok "="
     else if filterParts.length = 2 then Except.ok (filterParts.getD 1 "")
     else Except.error (Err.badRequest "An attribute provided for filtering is invalid")).bind
    fun comparison =>
    if ¬ modelGetattr m key then
      Except.error (Err.badRequest "An attribute provided for filtering is invalid")
    else
      match mapperAttr m key with
      | none => Except.error Err.keyError
      | some (MappedAttr.relationship _ _) =>
        Except.error (Err.badRequest "An attribute provided for filtering is invalid")
      | some (MappedAttr.column _) => opResult cs key comparison value

/-- Embeds `BaseResource.filter_by_params`: fold all request parameters, in
order, over `applyFilterKey`; the resulting clauses AND-combine on the
query. -/
def filterByParams (m : Model) (cs : List Clause) (params : List (String × String)) :
    Except Err (List Clause) :=
  params.foldlM (fun acc kv => applyFilterKey m acc kv.1 kv.2) cs

/-- A small concrete declarative model for concrete evaluations: scalar
columns id, name, age, joined; a to-many relationship children; a python
property display_name; and the declarative class attribute metadata, which is
not a mapped attribute. -/
def demoModel : Model where
  tablename := "employee"
  pkName := "id"
  columns := [("id", ColType.otherCol), ("name", ColType.otherCol),
              ("age", ColType.otherCol), ("joined", ColType.dateTimeCol)]
  relationships := [("children", true, "child")]
  props := ["display_name"]
  others := ["metadata"]

example : splitDunder "age__gte" = ["age", "gte"] := by decide
example : splitDunder "age" = ["age"] := by decide
example : splitDunder "a__b__c" = ["a", "b", "c"] := by decide
example : applyFilterKey demoModel [] "age__gte" "30" =
    Except.ok [⟨"age", FilterOp.gteOp, "30"⟩] := by decide
example : applyFilterKey demoModel [] "metadata" "x" = Except.error Err.keyError := by decide
example : applyFilterKey demoModel [] "bogus" "1" =
    Except.error (Err.badRequest "An attribute provided for filtering is invalid") := by decide

/-- Claim C5 (amended).  For every query-parameter key not prefixed with
double underscore, the filter compiler splits the key on `__`: zero suffix
parts compiles to an equality predicate; exactly one suffix part selects that
operator through the dispatch table `opResult` (=, in, null with value "0"
inverting to not-null and any other value meaning is-null, startswith,
contains, lt, lte, gt, gte; anything else raises BadRequest); more than one
suffix part raises BadRequest; a base name that does not resolve on the model
class, or that resolves to a mapped non-column attribute, raises BadRequest;
but a base name that resolves to a class attribute that is not a mapped
attribute (such as `metadata` or a python property) raises an uncaught
KeyError — a server fault, not the claimed BadRequest.  All compiled clauses
are appended in order and AND-combine on the query. -/
theorem C5_filter_compiler (m : Model) (cs : List Clause) (key value : String)
    (hkey : ¬ startsWithDunder key) :
    (∀ k, splitDunder key = [k] → ∀ ty, columnOf m k = some ty →
      applyFilterKey m cs key value = Except.ok (cs ++ [⟨k, FilterOp.eqOp, value⟩])) ∧
    (∀ k op, splitDunder key = [k, op] → ∀ ty, columnOf m k = some ty →
      applyFilterKey m cs key value = opResult cs k op value) ∧
    ((splitDunder key).length > 2 →
      applyFilterKey m cs key value =
        Except.error (Err.badRequest "An attribute provided for filtering is invalid")) ∧
    (∀ k rest, splitDunder key = k :: rest → rest.length ≤ 1 → ¬ modelGetattr m k →
      applyFilterKey m cs key value =
        Except.error (Err.badRequest "An attribute provided for filtering is invalid")) ∧
    (∀ k rest, splitDunder key = k :: rest → rest.length ≤ 1 → modelGetattr m k →
      mapperAttr m k = none →
      applyFilterKey m cs key value = Except.error Err.keyError) ∧
    (∀ k rest uselist target, splitDunder key = k :: rest → rest.length ≤ 1 →
      mapperAttr m k = some (MappedAttr.relationship uselist target) →
      applyFilterKey m cs key value =
        Except.error (Err.badRequest "An attribute provided for filtering is invalid")) := by
  refine ⟨?_, ?_, ?_, ?_, ?_, ?_⟩
  · intro k hk ty hty
    have hmap : mapperAttr m k = some (MappedAttr.column ty) := by
      simp [mapperAttr, hty]
    have hget : modelGetattr m k := by
      simp [modelGetattr, hmap]
    simp [applyFilterKey, Except.bind, if_neg hkey, hk, hget, hmap, opResult]
  · intro k op hk ty hty
    have hmap : mapperAttr m k = some (MappedAttr.column ty) := by
      simp [mapperAttr, hty]
    have hget : modelGetattr m k := by
      simp [modelGetattr, hmap]
    simp [applyFilterKey, Except.bind, if_neg hkey, hk, hget, hmap]
  · intro hlen
    have h1 : (splitDunder key).length ≠ 1 := by omega
    have h2 : (splitDunder key).length ≠ 2 := by omega
    simp [applyFilterKey, Except.bind, if_neg hkey, h1, h2]
  · intro k rest hk hrest hget
    rcases rest with _ | ⟨op, rest2⟩
    · simp [applyFilterKey, Except.bind, if_neg hkey, hk, hget]
    · rcases rest2 with _ | _
      · simp [applyFilterKey, Except.bind, if_neg hkey, hk, hget]
      · simp at hrest
  · intro k rest hk hrest hget hmap
    rcases rest with _ | ⟨op, rest2⟩
    · simp [applyFilterKey, Except.bind, if_neg hkey, hk, hget, hmap]
    · rcases rest2 with _ | _
      · simp [applyFilterKey, Except.bind, if_neg hkey, hk, hget, hmap]
      · simp at hrest
  · intro k rest uselist target hk hrest hmap
    have hget : modelGetattr m k := by
      simp [modelGetattr, hmap]
    rcases rest with _ | ⟨op, rest2⟩
    · simp [applyFilterKey, Except.bind, if_neg hkey, hk, hget, hmap]
    · rcases rest2 with _ | _
      · simp [applyFilterKey, Except.bind, if_neg hkey, hk, hget, hmap]
      · simp at hrest

/-- Claim C5 counterexample.  The filter key `metadata` is not an existing
scalar column of the model (every declarative class has `metadata` as an
unmapped class attribute), yet the compiler raises an uncaught KeyError from
`inspect(self.model).attrs['metadata']` — a server fault — not the claimed
HTTPBadRequest. -/
theorem C5_filter_compiler_counterexample :
    splitDunder "metadata" = ["metadata"] ∧
    columnOf demoModel "metadata" = none ∧
    applyFilterKey demoModel [] "metadata" "x" = Except.error Err.keyError ∧
    Err.keyError ≠ Err.badRequest "An attribute provided for filtering is invalid" := by
  decide

/-- Witness for C5: concrete instantiations of each hypothesis. -/
theorem C5_filter_compiler_witness :
    applyFilterKey demoModel [] "age" "30" =
      Except.ok [⟨"age", FilterOp.eqOp, "30"⟩] ∧
    applyFilterKey demoModel [] "age__gte" "30" =
      Except.ok [⟨"age", FilterOp.gteOp, "30"⟩] ∧
    applyFilterKey demoModel [] "a__b__c" "1" =
      Except.error (Err.badRequest "An attribute provided for filtering is invalid") := by
  refine ⟨?_, ?_, ?_⟩
  · exact (C5_filter_compiler demoModel [] "age" "30" (by decide)).1 "age"
      (by decide) ColType.otherCol (by decide)
  · have h := (C5_filter_compiler demoModel [] "age__gte" "30" (by decide)).2.1 "age" "gte"
      (by decide) ColType.otherCol (by decide)
    rw [h]
    decide
  · exact (C5_filter_compiler demoModel [] "a__b__c" "1" (by decide)).2.2.1 (by decide)

/-- Claim C7 (amended).  For every date, and for every time and datetime whose
sub-second component is zero, decoding the encoded wire representation returns
the original value: date encodes to YYYY-MM-DD, time to ISO-8601, datetime to
YYYY-MM-DDTHH:MM:SSZ (naive-flagged attributes omit the trailing Z) and decode
inverts each format on such values.  Values with non-zero microseconds do not
round-trip (see the counterexample); Decimal and geometry are exempted by the
claim itself. -/
theorem C7_codec_roundtrip (d : PyDate) (t : PyTime) (dt : PyDateTime) (naive : Bool)
    (hd : ValidDate d) (ht : ValidTime t) (ht0 : t.microsecond = 0)
    (hdt : ValidDateTime dt) (hdt0 : dt.microsecond = 0) :
    decodeDate (encodeDate d) = some d ∧
    decodeTime (isoformatTime t) = some t ∧
    decodeDateTime naive (encodeDateTime naive dt) = some dt :=
  ⟨decodeDate_encodeDate hd, decodeTime_isoformatTime ht ht0,
   decodeDateTime_encodeDateTime naive hdt hdt0⟩

/-- Claim C7 counterexample.  A datetime with 500000 microseconds is truncated
by the wire format (no sub-second directive in '%Y-%m-%dT%H:%M:%SZ'), so the
decoded value differs from the original; a time with 500000 microseconds
encodes with a fractional suffix on which the split-based decode raises
ValueError. -/
theorem C7_codec_counterexample :
    decodeDateTime false (encodeDateTime false ⟨2020, 1, 2, 3, 4, 5, 500000⟩) =
      some ⟨2020, 1, 2, 3, 4, 5, 0⟩ ∧
    decodeDateTime false (encodeDateTime false ⟨2020, 1, 2, 3, 4, 5, 500000⟩) ≠
      some ⟨2020, 1, 2, 3, 4, 5, 500000⟩ ∧
    decodeTime (isoformatTime ⟨3, 4, 5, 500000⟩) = none := by
  decide

/-- Witness for C7 at concrete whole-second values. -/
theorem C7_codec_roundtrip_witness :
    decodeDate (encodeDate ⟨2021, 2, 28⟩) = some ⟨2021, 2, 28⟩ ∧
    decodeTime (isoformatTime ⟨23, 59, 58, 0⟩) = some ⟨23, 59, 58, 0⟩ ∧
    decodeDateTime true (encodeDateTime true ⟨1999, 12, 31, 0, 0, 0, 0⟩) =
      some ⟨1999, 12, 31, 0, 0, 0, 0⟩ :=
  C7_codec_roundtrip ⟨2021, 2, 28⟩ ⟨23, 59, 58, 0⟩ ⟨1999, 12, 31, 0, 0, 0, 0⟩ true
    (by decide) (by decide) rfl (by decide) rfl

/-! ## The sort stage (CollectionResource.on_get, resource.py lines 317-340) -/

/-- One requested ordering, as passed to the `.order_by` call. -/
structure SortEntry where
  attr : AttrName
  descending : Bool
deriving DecidableEq

theorem data_asString (l : List Char) : (List.asString l).data = l := rfl

/-- Embeds the resolution of one sort entry (lines 324-339):
`field_name[0] == '-'` (an IndexError on an empty entry) selects descending
and strips the prefix; the base field must resolve to a mapped scalar column,
where a failure is HTTPBadRequest for a caller-supplied `__sort` but
HTTPInternalServerError for the configured default sort; a class attribute
that is not a mapped attribute makes `inspect(model).attrs[name]` raise an
uncaught KeyError. -/
def applySortField (m : Model) (usingDefaultSort : Bool) (fieldName : String) :
    Except Err SortEntry :=
  match fieldName.data with
  | [] => Except.error Err.indexError
  | c :: rest =>
    let reverse := c == '-'
    let name := if reverse then List.asString rest else fieldName
    if ¬ modelGetattr m name then
      (if usingDefaultSort then Except.error Err.internalServerError
       else Except.error (Err.badRequest "An attribute provided for sorting is invalid"))
    else
      match mapperAttr m name with
      | none => Except.error Err.keyError
      | some (MappedAttr.relationship _ _) =>
        (if usingDefaultSort then Except.error Err.internalServerError
         else Except.error (Err.badRequest "An attribute provided for sorting is invalid"))
      | some (MappedAttr.column _) => Except.ok ⟨name, reverse⟩

/-- Embeds the sort-selection block (lines 317-322, 340): a caller-supplied
`__sort` list overrides the configured default_sort; with neither present no
`.order_by` is issued; otherwise every entry is resolved in order and the
order fields are passed to one `.order_by` call. -/
def sortStage (m : Model) (defaultSort : Option (List String))
    (sortParam : Option (List String)) : Except Err (Option (List SortEntry)) :=
  let usingDefaultSort := sortParam.isNone
  let sort :=
    match sortParam with
    | some s => some s
    | none => defaultSort
  match sort with
  | none => Except.ok none
  | some fields => (fields.mapM (applySortField m usingDefaultSort)).map some

/-- Claim C8 (amended).  For every collection GET with an explicit `__sort`
list: the explicit list overrides the default; an entry prefixed with '-'
orders descending on its base field and an unprefixed entry orders ascending;
an entry whose base field does not resolve on the model class, or resolves to
a mapped non-column, raises BadRequest — but an entry naming a class
attribute that is not a mapped attribute raises an uncaught KeyError (a
server fault) instead of the claimed BadRequest.  When no `__sort` is given,
the configured default sort is used, and a default entry that does not
resolve to a mapped scalar column raises HTTPInternalServerError rather than
a client error. -/
theorem C8_sort_stage (m : Model) (ds : Option (List String)) :
    (∀ fields, sortStage m ds (some fields) =
      (fields.mapM (applySortField m false)).map some) ∧
    (∀ dfields, sortStage m (some dfields) none =
      (dfields.mapM (applySortField m true)).map some) ∧
    (sortStage m none none = Except.ok none) ∧
    (∀ rest ty, columnOf m (List.asString rest) = some ty →
      applySortField m false (List.asString ('-' :: rest)) =
        Except.ok ⟨List.asString rest, true⟩) ∧
    (∀ c rest ty, c ≠ '-' → columnOf m (List.asString (c :: rest)) = some ty →
      applySortField m false (List.asString (c :: rest)) =
        Except.ok ⟨List.asString (c :: rest), false⟩) ∧
    (∀ c rest, c ≠ '-' → ¬ modelGetattr m (List.asString (c :: rest)) →
      applySortField m false (List.asString (c :: rest)) =
        Except.error (Err.badRequest "An attribute provided for sorting is invalid")) ∧
    (∀ c rest uselist target, c ≠ '-' →
      mapperAttr m (List.asString (c :: rest)) =
        some (MappedAttr.relationship uselist target) →
      applySortField m false (List.asString (c :: rest)) =
        Except.error (Err.badRequest "An attribute provided for sorting is invalid")) ∧
    (∀ c rest, c ≠ '-' → ¬ modelGetattr m (List.asString (c :: rest)) →
      applySortField m true (List.asString (c :: rest)) =
        Except.error Err.internalServerError) ∧
    (∀ c rest, c ≠ '-' → modelGetattr m (List.asString (c :: rest)) →
      mapperAttr m (List.asString (c :: rest)) = none →
      applySortField m false (List.asString (c :: rest)) = Except.error Err.keyError) := by
  refine ⟨fun fields => rfl, fun dfields => rfl, rfl, ?_, ?_, ?_, ?_, ?_, ?_⟩
  · intro rest ty hty
    have hmap : mapperAttr m (List.asString rest) = some (MappedAttr.column ty) := by
      simp [mapperAttr, hty]
    have hget : modelGetattr m (List.asString rest) := by
      simp [modelGetattr, hmap]
    simp [applySortField, data_asString, hget, hmap]
  · intro c rest ty hc hty
    have hmap : mapperAttr m (List.asString (c :: rest)) = some (MappedAttr.column ty) := by
      simp [mapperAttr, hty]
    have hget : modelGetattr m (List.asString (c :: rest)) := by
      simp [modelGetattr, hmap]
    simp [applySortField, data_asString, hc, hget, hmap]
  · intro c rest hc hget
    simp [applySortField, data_asString, hc, hget]
  · intro c rest uselist target hc hmap
    have hget : modelGetattr m (List.asString (c :: rest)) := by
      simp [modelGetattr, hmap]
    simp [applySortField, data_asString, hc, hget, hmap]
  · intro c rest hc hget
    simp [applySortField, data_asString, hc, hget]
  · intro c rest hc hget hmap
    simp [applySortField, data_asString, hc, hget, hmap]

/-- Claim C8 counterexample.  The explicit sort entry `metadata` names a
class attribute that is not a mapped scalar column, and the sort stage raises
an uncaught KeyError — a server fault — not the claimed BadRequest. -/
theorem C8_sort_stage_counterexample :
    sortStage demoModel none (some ["metadata"]) = Except.error Err.keyError ∧
    Err.keyError ≠ Err.badRequest "An attribute provided for sorting is invalid" := by
  decide

/-- Witness for C8 at concrete sort entries. -/
theorem C8_sort_stage_witness :
    sortStage demoModel none (some ["-age", "name"]) =
      Except.ok (some [⟨"age", true⟩, ⟨"name", false⟩]) ∧
    applySortField demoModel false "bogus" =
      Except.error (Err.badRequest "An attribute provided for sorting is invalid") ∧
    applySortField demoModel true "bogus" = Except.error Err.internalServerError := by
  refine ⟨?_, ?_, ?_⟩
  · rw [(C8_sort_stage demoModel none).1 ["-age", "name"]]
    decide
  · have h := (C8_sort_stage demoModel none).2.2.2.2.2.1 'b' "ogus".data
      (by decide) (by decide)
    exact h
  · have h := (C8_sort_stage demoModel none).2.2.2.2.2.2.2.1 'b' "ogus".data
      (by decide) (by decide)
    exact h

/-! ## The pagination stage (CollectionResource.on_get, resource.py
lines 342-368) -/

/-- The response metadata dictionary built by the pagination block:
`{'total': count, 'page': page, 'page_size': page_size}`. -/
structure PageMeta where
  total : Option Nat
  page : Int
  pageSize : Int
deriving DecidableEq

/-- Python truthiness of an optional integer parameter: None and 0 are
falsy. -/
def truthyInt : Option Int → Bool
  | none => false
  | some n => n != 0

/-- Embeds the pagination block of `CollectionResource.on_get`:
`req.get_param_as_int` yields `none` for an absent parameter; the guard
`if page and page_size` uses python truthiness, so the count and the
`offset((page-1)*page_size).limit(page_size)` slicing activate only when both
parameters are present and non-zero, with the count taken on the filtered,
sorted, unsliced query; the response meta however is attached whenever both
parameters are merely present (`is not None`), carrying the possibly-None
count.  The slicing is expressed on the row list the database would return;
a negative offset cannot arise from a 1-indexed page and would be rejected by
the database itself. -/
def paginationStage {α : Type} (rows : List α) (page pageSize : Option Int) :
    Option Nat × List α × Option PageMeta :=
  let activated := truthyInt page && truthyInt pageSize
  let count : Option Nat := if activated then some rows.length else none
  let sliced :=
    if activated then
      (rows.drop ((page.getD 0 - 1) * pageSize.getD 0).toNat).take (pageSize.getD 0).toNat
    else rows
  let meta : Option PageMeta :=
    if page.isSome && pageSize.isSome then some ⟨count, page.getD 0, pageSize.getD 0⟩
    else none
  (count, sliced, meta)

/-- Claim C6 (amended).  Pagination (count, offset, limit) activates exactly
when both `__page` and `__page_size` are present and non-zero: the offset is
(page-1)*pageSize with limit pageSize, and the total is the length of the
filtered-but-unpaginated result, emitted in the meta together with page and
page_size.  When either parameter is absent, no count, offset or limit is
applied, the full result set is returned and no meta is attached.  When both
are present but either is zero, pagination is likewise not applied, yet the
meta IS attached, carrying a null total together with the raw page and
page_size values. -/
theorem C6_pagination {α : Type} (rows : List α) (p s : Int) :
    (∀ q : Option Int, paginationStage rows none q = (none, rows, none)) ∧
    (∀ q : Option Int, paginationStage rows q none = (none, rows, none)) ∧
    (p ≠ 0 → s ≠ 0 → paginationStage rows (some p) (some s) =
      (some rows.length,
       (rows.drop ((p - 1) * s).toNat).take s.toNat,
       some ⟨some rows.length, p, s⟩)) ∧
    (p = 0 ∨ s = 0 → paginationStage rows (some p) (some s) =
      (none, rows, some ⟨none, p, s⟩)) := by
  refine ⟨?_, ?_, ?_, ?_⟩
  · intro q
    simp [paginationStage, truthyInt]
  · intro q
    cases q <;> simp [paginationStage, truthyInt]
  · intro hp hs
    simp [paginationStage, truthyInt, hp, hs]
  · intro h
    rcases h with h | h
    · subst h
      simp [paginationStage, truthyInt]
    · subst h
      simp [paginationStage, truthyInt]

/-- Claim C6 counterexample.  With `__page=0&__page_size=10` both parameters
are present, yet no count, offset or limit is applied (python truthiness of 0
deactivates the guard) while the pagination meta is still attached with a
null total — so activation is not "exactly when both parameters are
present". -/
theorem C6_pagination_counterexample :
    paginationStage ["r1", "r2"] (some 0) (some 10) =
      (none, ["r1", "r2"], some ⟨none, 0, 10⟩) ∧
    (some (0 : Int)).isSome = true ∧ (some (10 : Int)).isSome = true := by
  constructor
  · simp [paginationStage, truthyInt]
  · constructor <;> rfl

/-- Witness for C6 on 25 rows with page 2 of size 10 (rows 10-19, 0-based),
plus an absent-parameter run. -/
theorem C6_pagination_witness :
    paginationStage (List.range 25) (some 2) (some 10) =
      (some 25, [10, 11, 12, 13, 14, 15, 16, 17, 18, 19],
       some ⟨some 25, 2, 10⟩) ∧
    paginationStage (List.range 25) none (some 10) =
      (none, List.range 25, none) := by
  constructor
  · rw [(C6_pagination (List.range 25) 2 10).2.2.1 (by decide) (by decide)]
    decide
  · exact (C6_pagination (List.range 25) 2 10).1 (some 10)

/-! ## Python values, uuid hex, entities -/

/-- A python value as stored on entity instances, carried in JSON request
bodies, and produced in response payloads (floats, Decimal and geometry are
outside every claim). -/
inductive PVal
  | pNone
  | pInt (n : Int)
  | pStr (s : String)
  | pBool (b : Bool)
  | pUuid (n : Nat)
  | pDate (d : PyDate)
  | pTime (t : PyTime)
  | pDateTime (dt : PyDateTime)
  | pList (l : List PVal)
  | pDict (l : List (AttrName × PVal))

/-- Insertion-order-preserving dictionary update `d[k] = v`. -/
def assocSet {β : Type} : List (AttrName × β) → AttrName → β → List (AttrName × β)
  | [], k, v => [(k, v)]
  | (k0, v0) :: rest, k, v =>
    if k0 = k then (k, v) :: rest else (k0, v0) :: assocSet rest k v

/-- Dictionary `d.pop(k)` leftover. -/
def assocRemove {β : Type} : List (AttrName × β) → AttrName → List (AttrName × β)
  | [], _ => []
  | (k0, v0) :: rest, k =>
    if k0 = k then rest else (k0, v0) :: assocRemove rest k

/-- The lowercase hexadecimal digit character. -/
def hexDigitChar (d : Nat) : Char := if d < 10 then digitChar d else Char.ofNat (87 + d)

/-- Zero-padded big-endian base-16 rendering with exactly k digits. -/
def toHexPad : Nat → Nat → List Char
  | 0, _ => []
  | k + 1, n => toHexPad k (n / 16) ++ [hexDigitChar (n % 16)]

/-- Embeds `uuid.UUID.hex`: the 32-digit lowercase hexadecimal form of the
128-bit value, without hyphens. -/
def uuidHex (n : Nat) : List Char := toHexPad 32 n

/-- Numeric value of a lowercase hexadecimal digit character. -/
def hexVal (c : Char) : Nat := if 97 ≤ c.toNat then c.toNat - 87 else c.toNat - 48

/-- Reads a big-endian hexadecimal digit string back into a number. -/
def ofHex (s : List Char) : Nat := s.foldl (fun acc c => acc * 16 + hexVal c) 0

def isLowerHexDigit (c : Char) : Bool :=
  (48 ≤ c.toNat && c.toNat ≤ 57) || (97 ≤ c.toNat && c.toNat ≤ 102)

theorem length_toHexPad (k : Nat) : ∀ n : Nat, (toHexPad k n).length = k := by
  induction k with
  | zero => intro n; rfl
  | succ k ih => intro n; simp [toHexPad, ih]

theorem hexDigitChar_lowerHex :
    ∀ d : Nat, d < 16 → isLowerHexDigit (hexDigitChar d) = true ∧ hexDigitChar d ≠ '-' := by
  decide

theorem hexVal_hexDigitChar : ∀ d : Nat, d < 16 → hexVal (hexDigitChar d) = d := by
  decide

theorem mem_toHexPad {k : Nat} :
    ∀ {n : Nat} {c : Char}, c ∈ toHexPad k n → isLowerHexDigit c = true ∧ c ≠ '-' := by
  induction k with
  | zero => intro n c h; simp [toHexPad] at h
  | succ k ih =>
    intro n c h
    simp only [toHexPad, List.mem_append, List.mem_singleton] at h
    rcases h with h | h
    · exact ih h
    · subst h
      exact hexDigitChar_lowerHex _ (Nat.mod_lt _ (by omega))

theorem foldl_hex_acc (s : List Char) :
    ∀ a : Nat, s.foldl (fun acc c => acc * 16 + hexVal c) a =
      a * 16 ^ s.length + ofHex s := by
  induction s with
  | nil => intro a; simp [ofHex]
  | cons c cs ih =>
    intro a
    simp only [List.foldl_cons, List.length_cons, ofHex]
    rw [ih (a * 16 + hexVal c), ih (0 * 16 + hexVal c)]
    ring

theorem ofHex_toHexPad (k : Nat) : ∀ n : Nat, n < 16 ^ k → ofHex (toHexPad k n) = n := by
  induction k with
  | zero =>
    intro n h
    simp only [pow_zero, Nat.lt_one_iff] at h
    subst h
    rfl
  | succ k ih =>
    intro n h
    have hd : n / 16 < 16 ^ k := by
      rw [pow_succ] at h
      omega
    have hm : n % 16 < 16 := Nat.mod_lt _ (by omega)
    simp only [toHexPad, ofHex, List.foldl_append, List.foldl_cons, List.foldl_nil]
    have hrw : (toHexPad k (n / 16)).foldl (fun acc c => acc * 16 + hexVal c) 0 = n / 16 :=
      ih (n / 16) hd
    rw [hrw, hexVal_hexDigitChar _ hm]
    omega

/-- An entity instance: its class descriptor, its instance dictionary of
scalar attribute values, and its loaded to-one and to-many relationship
values. -/
inductive Entity
  | mk (model : Model) (attrs : List (AttrName × PVal))
       (relatedOne : List (AttrName × Option Entity))
       (relatedMany : List (AttrName × List Entity))

def Entity.model : Entity → Model
  | Entity.mk m _ _ _ => m

def Entity.attrs : Entity → List (AttrName × PVal)
  | Entity.mk _ a _ _ => a

def Entity.relatedOne : Entity → List (AttrName × Option Entity)
  | Entity.mk _ _ r _ => r

def Entity.relatedMany : Entity → List (AttrName × List Entity)
  | Entity.mk _ _ _ r => r

/-- Embeds `setattr(instance, key, value)`. -/
def Entity.setattr : Entity → AttrName → PVal → Entity
  | Entity.mk m a r1 r2, k, v => Entity.mk m (assocSet a k v) r1 r2

/-- Embeds `hasattr(instance, key)` for scalar attributes: an instance
attribute or any class attribute. -/
def Entity.hasattrS (e : Entity) (k : AttrName) : Bool :=
  (e.attrs.lookup k).isSome || modelGetattr e.model k

/-- Embeds `getattr(instance, key)` for scalar values: the instance
dictionary first; an unset mapped attribute reads as None (class-level
values of unmapped class attributes are likewise not modelled beyond None);
a name that is neither set nor a class attribute raises AttributeError. -/
def Entity.getattrS (e : Entity) (k : AttrName) : Except Err PVal :=
  match e.attrs.lookup k with
  | some v => Except.ok v
  | none =>
    if modelGetattr e.model k then Except.ok PVal.pNone
    else Except.error Err.attributeError

/-- Embeds `getattr(instance, key)` for a loaded scalar attribute with a
plain default, as used by equality filters. -/
def Entity.attrD (e : Entity) (k : AttrName) : PVal :=
  (e.attrs.lookup k).getD PVal.pNone

/-- Embeds `update_resource` (lines 34-37): overwrite every pair onto the
instance. -/
def updateResource (e : Entity) (attributes : List (AttrName × PVal)) : Entity :=
  attributes.foldl (fun acc kv => acc.setattr kv.1 kv.2) e

/-! ## The resource serializer (BaseResource.serialize, lines 152-194) -/

/-- Embeds `_serialize_value` (152-189) for the value kinds above: a UUID
value becomes its `hex` string; datetimes, dates and times take their wire
formats (datetime honours the per-attribute naive flag); everything else
passes through unchanged. -/
def serializeValue (naiveDatetimes : List AttrName) (name : AttrName) (v : PVal) : PVal :=
  match v with
  | PVal.pUuid n => PVal.pStr (List.asString (uuidHex n))
  | PVal.pDateTime dt =>
    PVal.pStr (List.asString (encodeDateTime (naiveDatetimes.contains name) dt))
  | PVal.pDate d => PVal.pStr (List.asString (encodeDate d))
  | PVal.pTime t => PVal.pStr (List.asString (isoformatTime t))
  | v => v

/-- The default response field list `attrs.keys()`: every mapped attribute
name. -/
def mapperKeys (m : Model) : List AttrName :=
  m.columns.map Prod.fst ++ m.relationships.map Prod.fst

/-- Embeds `BaseResource.serialize` (152-194): project each response field
that is a mapped scalar column through `_serialize_value`; relationship
fields are filtered out; a response field that is not a mapped attribute at
all raises KeyError at `attrs[attr]`. -/
def serialize (naiveDatetimes : List AttrName) (e : Entity)
    (responseFields : Option (List AttrName)) : Except Err (List (AttrName × PVal)) :=
  (responseFields.getD (mapperKeys e.model)).foldlM
    (fun acc attr =>
      match mapperAttr e.model attr with
      | none => Except.error Err.keyError
      | some (MappedAttr.relationship _ _) => Except.ok acc
      | some (MappedAttr.column _) =>
        (e.getattrS attr).map fun v =>
          acc ++ [(attr, serializeValue naiveDatetimes attr v)])
    []

/-- Claim C10.  A UUID attribute value serializes to its 32-character
lowercase hexadecimal string (`uuid.hex`) — provably the base-16 rendering
of the 128-bit value, hyphen-free — and this conversion applies to every
response that goes through `serialize`, here exhibited on the resource's
serialized field list. -/
theorem C10_uuid_serialization (nd : List AttrName) (k : AttrName) (n : Nat)
    (e : Entity) (ty : ColType)
    (hcol : columnOf e.model k = some ty)
    (hval : e.attrs.lookup k = some (PVal.pUuid n))
    (hn : n < 16 ^ 32) :
    serializeValue nd k (PVal.pUuid n) = PVal.pStr (List.asString (uuidHex n)) ∧
    (uuidHex n).length = 32 ∧
    (∀ c ∈ uuidHex n, isLowerHexDigit c = true ∧ c ≠ '-') ∧
    ofHex (uuidHex n) = n ∧
    serialize nd e (some [k]) = Except.ok [(k, PVal.pStr (List.asString (uuidHex n)))] := by
  refine ⟨rfl, length_toHexPad 32 n, fun c hc => mem_toHexPad hc,
    ofHex_toHexPad 32 n hn, ?_⟩
  have hmap : mapperAttr e.model k = some (MappedAttr.column ty) := by
    simp [mapperAttr, hcol]
  simp [serialize, hmap, Entity.getattrS, hval, serializeValue, Except.map]

/-- Witness for C10 on a concrete entity holding uuid
0123456789abcdef0123456789abcdef. -/
theorem C10_uuid_serialization_witness :
    serialize [] (Entity.mk demoModel [("id", PVal.pUuid 0x0123456789abcdef0123456789abcdef)] [] [])
        (some ["id"]) =
      Except.ok [("id", PVal.pStr (List.asString (uuidHex 0x0123456789abcdef0123456789abcdef)))] :=
  (C10_uuid_serialization [] "id" 0x0123456789abcdef0123456789abcdef
    (Entity.mk demoModel [("id", PVal.pUuid 0x0123456789abcdef0123456789abcdef)] [] [])
    ColType.otherCol rfl rfl (by norm_num)).2.2.2.2

/-! ## Included relations (add_included, resource.py lines 58-84) -/

/-- A relationship attribute value on an instance: a loaded to-one target or
a loaded to-many list. -/
inductive RelVal
  | one (o : Option Entity)
  | many (l : List Entity)

/-- Embeds `getattr(instance, key)` for relationship attributes. -/
def Entity.getattrRel (e : Entity) (k : AttrName) : Except Err RelVal :=
  match e.relatedMany.lookup k with
  | some l => Except.ok (RelVal.many l)
  | none =>
    match e.relatedOne.lookup k with
    | some o => Except.ok (RelVal.one o)
    | none => Except.error Err.attributeError

/-- Embeds the dotted-path chase of add_included (lines 67-70): starting at
the resource, follow each path segment through `getattr`; a segment applied
to None or to a list raises AttributeError. -/
def chainGetattr : RelVal → List String → Except Err RelVal
  | v, [] => Except.ok v
  | RelVal.one (some e), p :: rest => (e.getattrRel p).bind fun v => chainGetattr v rest
  | RelVal.one none, _ :: _ => Except.error Err.attributeError
  | RelVal.many _, _ :: _ => Except.error Err.attributeError

/-- Embeds one iteration of `add_included` (lines 62-84).  The state carries
the `data['attributes']` dictionary and the binding of the loop variable
`included_resource`, which line 76 reads BEFORE the loop on line 77 binds it:
for a list-valued relationship this raises UnboundLocalError (a NameError)
unless some earlier list iteration left a stale binding, in which case the
empty list is installed under the STALE entity's table name and each element
is appended under its own table name (KeyError when those differ).  A name
absent from allowed_included fails with HTTPBadRequest, but only when its
turn comes — earlier names have already been serialized. -/
def addIncludedOne (allowed : List String) (naiveD : List AttrName) (res : Entity)
    (st : List (AttrName × PVal) × Option Entity) (included : String) :
    Except Err (List (AttrName × PVal) × Option Entity) :=
  if ¬ allowed.contains included then
    Except.error (Err.badRequest "The included parameter includes invalid entities")
  else
    (if included.data.contains '.' then
      chainGetattr (RelVal.one (some res)) ((pySplitChar '.' included.data).map List.asString)
     else res.getattrRel included).bind
    fun incRes =>
    match incRes with
    | RelVal.many l =>
      match st.2 with
      | none => Except.error Err.nameError
      | some stale =>
        let d0 := assocSet st.1 stale.model.tablename (PVal.pList [])
        l.foldlM
          (fun (acc : List (AttrName × PVal) × Option Entity) e =>
            (serialize naiveD e none).bind fun out =>
            match acc.1.lookup e.model.tablename with
            | some (PVal.pList arr) =>
              Except.ok (assocSet acc.1 e.model.tablename
                (PVal.pList (arr ++ [PVal.pDict out])), some e)
            | some _ => Except.error Err.attributeError
            | none => Except.error Err.keyError)
          (d0, st.2)
    | RelVal.one (some e) =>
      (serialize naiveD e none).map fun out =>
        (assocSet st.1 e.model.tablename (PVal.pDict out), st.2)
    | RelVal.one none => Except.ok st

/-- Embeds `add_included` (lines 58-84): nothing happens without the
`__included` control parameter; otherwise each listed name is processed in
order by `addIncludedOne`. -/
def addIncluded (allowed : List String) (naiveD : List AttrName) (res : Entity)
    (includedParams : Option (List String)) (data0 : List (AttrName × PVal)) :
    Except Err (List (AttrName × PVal)) :=
  match includedParams with
  | none => Except.ok data0
  | some incs =>
    (incs.foldlM (addIncludedOne allowed naiveD res) (data0, none)).map Prod.fst

/-- A to-many target model for concrete runs. -/
def childModel : Model where
  tablename := "child"
  pkName := "id"
  columns := [("id", ColType.otherCol), ("x", ColType.otherCol), ("parent_id", ColType.otherCol)]
  relationships := []
  props := []
  others := ["metadata"]

def childOne : Entity := Entity.mk childModel [("id", PVal.pInt 1), ("x", PVal.pInt 5)] [] []

def bossEntity : Entity := Entity.mk demoModel [("id", PVal.pInt 3), ("name", PVal.pStr "Ann")] [] []

def parentWithKids : Entity :=
  Entity.mk demoModel [("id", PVal.pInt 7)] [("boss", some bossEntity)]
    [("children", [childOne])]

/-- Claim C4 at concrete inputs.  A name absent from the allow-list fails
with BadRequest, and a single-valued include is serialized under its table
name — but an allowed LIST-valued include crashes with UnboundLocalError
(line 76 reads the loop variable `included_resource` before the line-77 loop
binds it), so the claimed sequence of serializations is never produced. -/
theorem C4_included_list_crash :
    addIncluded ["children", "boss"] [] parentWithKids (some ["bogus"]) [] =
      Except.error (Err.badRequest "The included parameter includes invalid entities") ∧
    addIncluded ["children", "boss"] [] parentWithKids (some ["boss"]) [] =
      Except.ok [("employee", PVal.pDict [("id", PVal.pInt 3), ("name", PVal.pStr "Ann"),
        ("age", PVal.pNone), ("joined", PVal.pNone)])] ∧
    addIncluded ["children", "boss"] [] parentWithKids (some ["children"]) [] =
      Except.error Err.nameError :=
  ⟨rfl, rfl, rfl⟩

/-! ## The deserializer (SingleResource.deserialize, resource.py 562-634) -/

/-- Embeds the column-type dispatch of deserialize (601-632): DateTime and
Date values parse from their wire strings via strptime (an uncaught
ValueError on a mismatch, TypeError on a non-string), Time splits on ':'
(AttributeError on a non-string), None passes through each branch, and any
other column type takes the raw value unchanged. -/
def decodeColumn (naiveD : List AttrName) (key : AttrName) (ct : ColType) (value : PVal) :
    Except Err PVal :=
  match ct with
  | ColType.dateTimeCol =>
    match value with
    | PVal.pNone => Except.ok PVal.pNone
    | PVal.pStr s =>
      match decodeDateTime (naiveD.contains key) s.data with
      | some dt => Except.ok (PVal.pDateTime dt)
      | none => Except.error Err.valueError
    | _ => Except.error Err.typeError
  | ColType.dateCol =>
    match value with
    | PVal.pNone => Except.ok PVal.pNone
    | PVal.pStr s =>
      match decodeDate s.data with
      | some d => Except.ok (PVal.pDate d)
      | none => Except.error Err.valueError
    | _ => Except.error Err.typeError
  | ColType.timeCol =>
    match value with
    | PVal.pNone => Except.ok PVal.pNone
    | PVal.pStr s =>
      match decodeTime s.data with
      | some t => Except.ok (PVal.pTime t)
      | none => Except.error Err.valueError
    | _ => Except.error Err.attributeError
  | ColType.otherCol => Except.ok value

/-- Embeds the allow_recursion=False level of `SingleResource.deserialize`
(562-634), the shape of every recursive call: the "pk" key passes raw; a key
that is a python property of SELF's model (line 576 consults `self.model`,
not the target) passes raw; a mapped column of the target model decodes by
type; everything else is silently ignored. -/
def deserializeSingleLevel (naiveD : List AttrName) (selfModel model : Model)
    (data : List (AttrName × PVal)) : Except Err (List (AttrName × PVal)) :=
  data.foldlM
    (fun acc kv =>
      if kv.1 = "pk" then Except.ok (assocSet acc kv.1 kv.2)
      else if isProp selfModel kv.1 then Except.ok (assocSet acc kv.1 kv.2)
      else
        match columnOf model kv.1 with
        | none => Except.ok acc
        | some ct => (decodeColumn naiveD kv.1 ct kv.2).map (assocSet acc kv.1))
    []

/-- The python pair list `[attributes, linked]` that deserialize returns. -/
structure Deserialized where
  attributes : List (AttrName × PVal)
  linked : List (AttrName × PVal)

/-- Embeds `SingleResource.deserialize` (562-634) at the top level: columns
and python properties as in the inner level; when allow_recursion is set, a
key naming a mapped relationship deserializes each nested payload at the
inner no-recursion level against the relationship's target model.  For a
to-many relationship the linked key is bound (once per element, to the same
list) to the list of inner attribute dictionaries — an EMPTY nested list
never binds the key, because the assignment sits inside `for entity in
value` — and for a to-one relationship to the single inner dictionary.
Iterating a non-list raises TypeError; `.items()` on a non-dictionary nested
payload raises AttributeError. -/
def deserializeSingleFull (naiveD : List AttrName) (selfModel : Model)
    (env : List (String × Model)) (data : List (AttrName × PVal))
    (allowRecursion : Bool) : Except Err Deserialized :=
  data.foldlM
    (fun (acc : Deserialized) kv =>
      if kv.1 = "pk" then
        Except.ok {acc with attributes := assocSet acc.attributes kv.1 kv.2}
      else if isProp selfModel kv.1 then
        Except.ok {acc with attributes := assocSet acc.attributes kv.1 kv.2}
      else
        match columnOf selfModel kv.1 with
        | some ct =>
          (decodeColumn naiveD kv.1 ct kv.2).map fun v =>
            {acc with attributes := assocSet acc.attributes kv.1 v}
        | none =>
          if ¬ allowRecursion then Except.ok acc
          else
            match relationshipOf selfModel kv.1 with
            | none => Except.ok acc
            | some (uselist, targetName) =>
              match env.lookup targetName with
              | none => Except.error Err.attributeError
              | some target =>
                if uselist then
                  match kv.2 with
                  | PVal.pList [] => Except.ok acc
                  | PVal.pList items =>
                    (items.mapM fun item =>
                        match item with
                        | PVal.pDict d =>
                          (deserializeSingleLevel naiveD selfModel target d).map PVal.pDict
                        | _ => Except.error Err.attributeError).map
                      fun lst =>
                        {acc with linked := assocSet acc.linked kv.1 (PVal.pList lst)}
                  | _ => Except.error Err.typeError
                else
                  match kv.2 with
                  | PVal.pDict d =>
                    (deserializeSingleLevel naiveD selfModel target d).map fun attrs =>
                      {acc with linked := assocSet acc.linked kv.1 (PVal.pDict attrs)}
                  | _ => Except.error Err.attributeError)
    ⟨[], []⟩

/-! ## Locating a single resource (apply_arg_filter + query.one()) -/

/-- SQL equality between a stored scalar value and a bound parameter, for
same-type scalars (cross-type coercion is the external database's business
and is exercised by no claim). -/
def scalarEq : PVal → PVal → Bool
  | PVal.pNone, PVal.pNone => true
  | PVal.pInt a, PVal.pInt b => a == b
  | PVal.pStr a, PVal.pStr b => a == b
  | PVal.pBool a, PVal.pBool b => a == b
  | PVal.pUuid a, PVal.pUuid b => a == b
  | PVal.pDate a, PVal.pDate b => a == b
  | PVal.pTime a, PVal.pTime b => a == b
  | PVal.pDateTime a, PVal.pDateTime b => a == b
  | _, _ => false

/-- Embeds `BaseResource.apply_arg_filter` (196-207) for plain attr_map
entries (a callable entry is an external hook no claim exercises): each
path-bound argument is remapped through attr_map, must resolve to a mapped
scalar column — otherwise HTTPInternalServerError, with the usual uncaught
KeyError for an unmapped class attribute — and contributes an equality
filter AND-ed onto the query. -/
def argFilterPred (m : Model) (attrMap : List (String × String))
    (args : List (String × PVal)) : Except Err (Entity → Bool) :=
  args.foldlM
    (fun pred kv =>
      let key := (attrMap.lookup kv.1).getD kv.1
      if ¬ modelGetattr m key then Except.error Err.internalServerError
      else
        match mapperAttr m key with
        | none => Except.error Err.keyError
        | some (MappedAttr.relationship _ _) => Except.error Err.internalServerError
        | some (MappedAttr.column _) =>
          Except.ok (fun e => pred e && scalarEq (e.attrD key) kv.2))
    (fun _ => true)

/-- Embeds `query.one()`: NoResultFound on zero rows (mapped to HTTPNotFound
at the single handlers' first lookup), MultipleResultsFound on several
(mapped to HTTPInternalServerError there). -/
def queryOne (rows : List Entity) : Except Err Entity :=
  match rows with
  | [] => Except.error Err.notFound
  | [r] => Except.ok r
  | _ => Except.error Err.internalServerError

/-! ## on_put (SingleResource.on_put, resource.py 746-798) -/

/-- A python object reference as manipulated after the deserialize call:
either a plain dict, or the two-element list `[attributes, linked]` that
deserialize returns. -/
inductive PyObj
  | dict (entries : List (AttrName × PVal))
  | pylist (fst : List (AttrName × PVal)) (snd : List (AttrName × PVal))

/-- Python `key in obj`: dict key containment; on the pair list, a string is
never equal to either element dict, so containment is always false. -/
def PyObj.containsKey : PyObj → AttrName → Bool
  | PyObj.dict l, k => (l.lookup k).isSome
  | PyObj.pylist _ _, _ => false

/-- Python `obj[key] = v` with a string key: a TypeError on a list. -/
def PyObj.setItem : PyObj → AttrName → PVal → Except Err PyObj
  | PyObj.dict l, k, v => Except.ok (PyObj.dict (assocSet l k v))
  | PyObj.pylist _ _, _, _ => Except.error Err.typeError

/-- Python `obj.items()`: an AttributeError on a list. -/
def PyObj.items : PyObj → Except Err (List (AttrName × PVal))
  | PyObj.dict l => Except.ok l
  | PyObj.pylist _ _ => Except.error Err.attributeError

/-- Embeds `BaseResource.apply_default_attributes` (209-213) on whatever
object the caller passed as the attribute mapping; each default generator's
value is the mapping entry. -/
def applyDefaultAttributes (defaults : List (AttrName × PVal)) (obj : PyObj) :
    Except Err PyObj :=
  defaults.foldlM
    (fun o kv => if o.containsKey kv.1 then Except.ok o else o.setItem kv.1 kv.2) obj

/-- Embeds `SingleResource.on_put` (746-798).  Locate through the arg-derived
equality filter and `.one()`; then `attributes = self.deserialize(req.context['doc'])`
binds the returned PAIR `[attributes, linked]` — unlike on_patch there is no
unpacking — so `apply_default_attributes` operates on a python list (`key not
in attributes` is membership over the two element dicts, hence always true,
and `attributes[key] = ...` raises TypeError at the first configured
default), and with no put_defaults configured the later `attributes.items()`
raises AttributeError.  The overwrite/commit/serialize tail is embedded but
unreachable; the commit's uniqueness outcome is supplied by the external
database. -/
def onPut (naiveD : List AttrName) (putDefaults : List (AttrName × PVal))
    (m : Model) (env : List (String × Model)) (attrMap : List (String × String))
    (db : List Entity) (args : List (String × PVal)) (doc : List (AttrName × PVal))
    (uniqueViolation : Bool) : Except Err (List (AttrName × PVal)) := do
  let pred ← argFilterPred m attrMap args
  let resource ← queryOne (db.filter pred)
  let des ← deserializeSingleFull naiveD m env doc false
  let attributesObj := PyObj.pylist des.attributes des.linked
  let attributesObj2 ← applyDefaultAttributes putDefaults attributesObj
  let items ← attributesObj2.items
  let resource2 := updateResource resource items
  if uniqueViolation then Except.error (Err.conflict "Unique constraint violated")
  else serialize naiveD resource2 none

/-- Claim C1 evaluated at concrete failing inputs: a PUT whose arg-derived
filter locates exactly one entity dies with an uncaught python exception
before any attribute is written — AttributeError when no put_defaults are
configured (the pair list has no `.items`), TypeError otherwise (list
indexing with a string key) — instead of the claimed
deserialize/defaults/overwrite/commit/OK behaviour. -/
theorem C1_on_put_crashes :
    onPut [] [] demoModel [("child", childModel)] []
      [Entity.mk demoModel [("id", PVal.pInt 1), ("name", PVal.pStr "Bob")] [] []]
      [("id", PVal.pInt 1)] [("name", PVal.pStr "Alice")] false =
      Except.error Err.attributeError ∧
    onPut [] [("age", PVal.pInt 30)] demoModel [("child", childModel)] []
      [Entity.mk demoModel [("id", PVal.pInt 1), ("name", PVal.pStr "Bob")] [] []]
      [("id", PVal.pInt 1)] [("name", PVal.pStr "Alice")] false =
      Except.error Err.typeError :=
  ⟨rfl, rfl⟩

/-! ## on_patch (SingleResource.on_patch, resource.py 806-912) -/

/-- Embeds `get_pk`'s `int(...)` conversion: ints pass, digit strings parse,
any other string raises ValueError and other types TypeError, all
uncaught. -/
def pyIntOf : PVal → Except Err Int
  | PVal.pInt n => Except.ok n
  | PVal.pStr s =>
    match pyInt s.data with
    | some n => Except.ok (Int.ofNat n)
    | none => Except.error Err.valueError
  | _ => Except.error Err.typeError

/-- Embeds `get_pk` (40-45): pop 'pk' from the attribute dictionary —
absence is HTTPBadRequest — then convert with int(). -/
def getPk (attrs : List (AttrName × PVal)) :
    Except Err (Int × List (AttrName × PVal)) :=
  match attrs.lookup "pk" with
  | none => Except.error (Err.badRequest "No primary key provided for related object.")
  | some v => (pyIntOf v).map fun n => (n, assocRemove attrs "pk")

/-- Embeds `apply_default_attributes` on a genuine attribute dictionary (the
on_patch and on_post case): each configured default fills in only when its
key is absent. -/
def defaultsFill (defaults : List (AttrName × PVal))
    (attrs : List (AttrName × PVal)) : List (AttrName × PVal) :=
  defaults.foldl
    (fun l kv => if (l.lookup kv.1).isSome then l else assocSet l kv.1 kv.2) attrs

/-- An updated sub-resource collected for the response. -/
inductive Updated
  | uOne (e : Entity)
  | uMany (l : List Entity)

/-- Embeds the linked-relationship update loop of on_patch (850-876),
threading the binding of the local variable `subresource`, which the
to-many branch READS (`update_resource(subresource, attributes)`, line 866)
without ever assigning it: with no earlier to-one iteration the name is
unbound and python raises NameError; with one, a stale unrelated entity is
updated.  The matched sub-entity is never looked up.  The to-one branch
checks existence and primary-key agreement, then overwrites the linked
entity's attributes. -/
def patchLinked (naiveD : List AttrName) (m : Model) (env : List (String × Model))
    (resource : Entity) (linked : List (AttrName × PVal)) :
    Except Err (List (AttrName × Updated)) := do
  let st ← linked.foldlM
    (fun (st : Option Entity × List (AttrName × Updated)) kv => do
      let rel ← match relationshipOf m kv.1 with
        | some r => Except.ok r
        | none => Except.error Err.keyError
      let target ← match env.lookup rel.2 with
        | some t => Except.ok t
        | none => Except.error Err.attributeError
      let subresourcePk := target.pkName
      if rel.1 then do
        let subresources ← match resource.relatedMany.lookup kv.1 with
          | some l => Except.ok l
          | none => Except.error Err.attributeError
        let subresourcesPks := subresources.map (fun sr => sr.attrD subresourcePk)
        match kv.2 with
        | PVal.pList items => do
          let st2 ← items.foldlM
            (fun (st2 : Option Entity × List Entity) item => do
              let d ← match item with
                | PVal.pDict d => Except.ok d
                | _ => Except.error Err.attributeError
              let pk ← getPk d
              if ¬ subresourcesPks.any (fun p => scalarEq p (PVal.pInt pk.1)) then
                Except.error (Err.badRequest "Primary key not found in related resources.")
              else
                match st2.1 with
                | none => Except.error Err.nameError
                | some sr =>
                  let sr2 := updateResource sr pk.2
                  Except.ok (some sr2, st2.2 ++ [sr2]))
            (st.1, [])
          Except.ok (st2.1, st.2 ++ [(kv.1, Updated.uMany st2.2)])
        | _ => Except.error Err.typeError
      else do
        let subOpt ← match resource.relatedOne.lookup kv.1 with
          | some o => Except.ok o
          | none => Except.error Err.attributeError
        match subOpt with
        | none => Except.error (Err.badRequest "Related resource does not exist.")
        | some sr => do
          let d ← match kv.2 with
            | PVal.pDict d => Except.ok d
            | _ => Except.error Err.attributeError
          let pk ← getPk d
          if ¬ scalarEq (sr.attrD subresourcePk) (PVal.pInt pk.1) then
            Except.error (Err.badRequest "Primary key does not match related resource.")
          else
            let sr2 := updateResource sr pk.2
            Except.ok (some sr2, st.2 ++ [(kv.1, Updated.uOne sr2)]))
    ((none : Option Entity), ([] : List (AttrName × Updated)))
  Except.ok st.2

/-- Embeds `SingleResource.on_patch` (806-912): locate through the arg
filter and `.one()` (zero ⇒ NotFound); re-resolve through the parameter
filters and the patch precondition (zero ⇒ Conflict; several propagate
MultipleResultsFound uncaught); deserialize with relationship recursion
allowed; apply patch_defaults; overwrite the resource's attributes; run the
linked-relationship update loop; commit (a uniqueness violation rolls back
to Conflict); serialize the resource and each updated sub-resource under its
relationship key. -/
def onPatch (naiveD : List AttrName) (patchDefaults : List (AttrName × PVal))
    (allowSub : Bool) (m : Model) (env : List (String × Model))
    (attrMap : List (String × String)) (clauseSem : Clause → Entity → Bool)
    (precondPred : Entity → Bool) (db : List Entity) (args : List (String × PVal))
    (params : List (String × String)) (doc : List (AttrName × PVal))
    (uniqueViolation : Bool) : Except Err (List (AttrName × PVal)) := do
  let pred ← argFilterPred m attrMap args
  let _located ← queryOne (db.filter pred)
  let clauses ← filterByParams m [] params
  let rows2 := (db.filter pred).filter
    (fun e => clauses.all (fun c => clauseSem c e) && precondPred e)
  let resource ← match rows2 with
    | [] => Except.error (Err.conflict "Resource found but conditions violated")
    | [r] => Except.ok r
    | _ => Except.error Err.multipleResultsFound
  let des ← deserializeSingleFull naiveD m env doc allowSub
  let attributes := defaultsFill patchDefaults des.attributes
  let resource2 := updateResource resource attributes
  let updated ← patchLinked naiveD m env resource2 des.linked
  if uniqueViolation then Except.error (Err.conflict "Unique constraint violated")
  else do
    let base ← serialize naiveD resource2 none
    updated.foldlM
      (fun d kv =>
        match kv.2 with
        | Updated.uMany l =>
          (l.mapM (fun sr => (serialize naiveD sr none).map PVal.pDict)).map
            fun outs => assocSet d kv.1 (PVal.pList outs)
        | Updated.uOne sr =>
          (serialize naiveD sr none).map fun out => assocSet d kv.1 (PVal.pDict out))
      base

/-- Claim C3 evaluated at concrete inputs.  A missing 'pk' in a to-many
sub-payload and a 'pk' matching no linked entity each fail with BadRequest
(the claim's first half holds), but when every pk matches an existing linked
entity the update loop reads the never-assigned variable `subresource`
(line 866) and the whole PATCH dies with an uncaught NameError — the matched
sub-entity is never located, let alone overwritten or returned. -/
theorem C3_on_patch_linked :
    onPatch [] [] true demoModel [("child", childModel)] [] (fun _ _ => true)
      (fun _ => true)
      [Entity.mk demoModel [("id", PVal.pInt 1)] [] [("children", [childOne])]]
      [("id", PVal.pInt 1)] []
      [("children", PVal.pList [PVal.pDict [("pk", PVal.pInt 1), ("x", PVal.pInt 9)]])]
      false =
      Except.error Err.nameError ∧
    onPatch [] [] true demoModel [("child", childModel)] [] (fun _ _ => true)
      (fun _ => true)
      [Entity.mk demoModel [("id", PVal.pInt 1)] [] [("children", [childOne])]]
      [("id", PVal.pInt 1)] []
      [("children", PVal.pList [PVal.pDict [("x", PVal.pInt 9)]])]
      false =
      Except.error (Err.badRequest "No primary key provided for related object.") ∧
    onPatch [] [] true demoModel [("child", childModel)] [] (fun _ _ => true)
      (fun _ => true)
      [Entity.mk demoModel [("id", PVal.pInt 1)] [] [("children", [childOne])]]
      [("id", PVal.pInt 1)] []
      [("children", PVal.pList [PVal.pDict [("pk", PVal.pInt 2), ("x", PVal.pInt 9)]])]
      false =
      Except.error (Err.badRequest "Primary key not found in related resources.") :=
  ⟨rfl, rfl, rfl⟩

/-! ## on_post (CollectionResource.deserialize and on_post,
resource.py 219-291 and 377-468) -/

/-- Embeds the allow_recursion=False level of `CollectionResource.deserialize`
(the shape of its recursive calls): no "pk" special case; a python property
of the model parameter (line 234 consults the parameter, unlike the single
deserializer) passes raw; a mapped column decodes by type; everything else is
silently ignored. -/
def deserializeCollectionLevel (naiveD : List AttrName) (model : Model)
    (data : List (AttrName × PVal)) : Except Err (List (AttrName × PVal)) :=
  data.foldlM
    (fun acc kv =>
      if isProp model kv.1 then Except.ok (assocSet acc kv.1 kv.2)
      else
        match columnOf model kv.1 with
        | none => Except.ok acc
        | some ct => (decodeColumn naiveD kv.1 ct kv.2).map (assocSet acc kv.1))
    []

/-- Embeds `CollectionResource.deserialize` (219-291): path-bound arguments
are remapped through attr_map and must be mapped scalar columns (otherwise
HTTPInternalServerError, with the uncaught KeyError for an unmapped class
attribute); body keys then decode as at the inner level, and — when
recursion is allowed — a key naming a mapped relationship deserializes its
nested payloads at the no-recursion level against the target model (an empty
nested list never binds the linked key). -/
def deserializeCollection (naiveD : List AttrName) (attrMap : List (String × String))
    (m : Model) (env : List (String × Model)) (pathData : List (String × PVal))
    (bodyData : List (AttrName × PVal)) (allowRecursion : Bool) :
    Except Err Deserialized := do
  let attrs0 ← pathData.foldlM
    (fun acc kv =>
      let key := (attrMap.lookup kv.1).getD kv.1
      if ¬ modelGetattr m key then Except.error Err.internalServerError
      else
        match mapperAttr m key with
        | none => Except.error Err.keyError
        | some (MappedAttr.relationship _ _) => Except.error Err.internalServerError
        | some (MappedAttr.column _) => Except.ok (assocSet acc key kv.2))
    []
  bodyData.foldlM
    (fun (acc : Deserialized) kv =>
      if isProp m kv.1 then
        Except.ok {acc with attributes := assocSet acc.attributes kv.1 kv.2}
      else
        match columnOf m kv.1 with
        | some ct =>
          (decodeColumn naiveD kv.1 ct kv.2).map fun v =>
            {acc with attributes := assocSet acc.attributes kv.1 v}
        | none =>
          if ¬ allowRecursion then Except.ok acc
          else
            match relationshipOf m kv.1 with
            | none => Except.ok acc
            | some (uselist, targetName) =>
              match env.lookup targetName with
              | none => Except.error Err.attributeError
              | some target =>
                if uselist then
                  match kv.2 with
                  | PVal.pList [] => Except.ok acc
                  | PVal.pList items =>
                    (items.mapM fun item =>
                        match item with
                        | PVal.pDict d =>
                          (deserializeCollectionLevel naiveD target d).map PVal.pDict
                        | _ => Except.error Err.attributeError).map
                      fun lst =>
                        {acc with linked := assocSet acc.linked kv.1 (PVal.pList lst)}
                  | _ => Except.error Err.typeError
                else
                  match kv.2 with
                  | PVal.pDict d =>
                    (deserializeCollectionLevel naiveD target d).map fun attrs =>
                      {acc with linked := assocSet acc.linked kv.1 (PVal.pDict attrs)}
                  | _ => Except.error Err.attributeError)
    ⟨attrs0, []⟩

/-- The relationship kinds recorded in `subresources_created`. -/
inductive RelKind
  | onetomany
  | onetoone

/-- Modelled from the spec: the inner `db_session.commit()` flushes the
staged objects, the database generates the parent's primary key when the
payload carried none, and for each child appended to a to-many relationship
the ORM assigns the child's foreign-key column from the parent's primary key
(spec section 8: "each child's foreign key referencing the parent's primary
key"); the name of that foreign-key column is external ORM mapping data,
supplied here per relationship key. -/
def ormFlush (fkNames : List (AttrName × AttrName)) (generatedPk : PVal)
    (parent : Entity) (subs : List (AttrName × RelKind × Entity)) :
    Entity × List (AttrName × RelKind × Entity) :=
  let parent2 :=
    if (parent.attrs.lookup parent.model.pkName).isSome then parent
    else parent.setattr parent.model.pkName generatedPk
  let subs2 := subs.map fun t =>
    match t.2.1 with
    | RelKind.onetomany =>
      match fkNames.lookup t.1 with
      | some fk => (t.1, t.2.1, t.2.2.setattr fk (parent2.attrD parent2.model.pkName))
      | none => t
    | RelKind.onetoone => t
  (parent2, subs2)

/-- Embeds the back-fill loop body of on_post (422-436).  For 'onetoone': the
resource receives the subresource's `<subtablename>_id` attribute when the
resource has such an attribute, then the subresource receives the resource's
`<tablename>_id` attribute when the subresource has one.  For 'onetomany':
only the subresource receives the resource's `<tablename>_id` attribute (the
reverse direction is a TODO in the source).  Each copy reads the SOURCE side
with an UNGUARDED getattr, so a source lacking the attribute raises
AttributeError; and the value copied is the same-named attribute of the
other entity — the parent's primary key only when the parent's primary-key
column is itself named `<tablename>_id`. -/
def backfillStep (parent : Entity) (kind : RelKind) (sub : Entity) :
    Except Err (Entity × Entity) :=
  match kind with
  | RelKind.onetoone => do
    let subresourceId := sub.model.tablename ++ "_id"
    let parent2 ←
      if parent.hasattrS subresourceId then
        (sub.getattrS subresourceId).map fun v => parent.setattr subresourceId v
      else Except.ok parent
    let resourceId := parent2.model.tablename ++ "_id"
    let sub2 ←
      if sub.hasattrS resourceId then
        (parent2.getattrS resourceId).map fun v => sub.setattr resourceId v
      else Except.ok sub
    Except.ok (parent2, sub2)
  | RelKind.onetomany => do
    let resourceId := parent.model.tablename ++ "_id"
    let sub2 ←
      if sub.hasattrS resourceId then
        (parent.getattrS resourceId).map fun v => sub.setattr resourceId v
      else Except.ok sub
    Except.ok (parent, sub2)

/-- The outcome of a successful create. -/
structure PostResult where
  resource : Entity
  subresourcesCreated : List (AttrName × RelKind × Entity)
  data : List (AttrName × PVal)

/-- The rows a successful on_post commits: the parent and every created
sub-resource, made visible together by the final commit (any failure rolls
everything back, so nothing of a failed request is ever visible). -/
def PostResult.committedRows (r : PostResult) : List Entity :=
  r.resource :: r.subresourcesCreated.map (fun t => t.2.2)

/-- Embeds `CollectionResource.on_post` (377-468): deserialize the body
merged with path-bound attributes (recursion per allow_subresources), apply
post_defaults, instantiate the entity, stage it and each linked sub-resource
inside the nested transaction, inner-commit (the ORM flush assigns generated
and relationship foreign keys), back-fill reference ids with `backfillStep`,
outer-commit — an IntegrityError at either commit rolls everything back and
surfaces HTTPConflict — then serialize the entity plus each created
sub-resource under its relationship key. -/
def onPost (naiveD : List AttrName) (postDefaults : List (AttrName × PVal))
    (allowSub : Bool) (attrMap : List (String × String)) (m : Model)
    (env : List (String × Model)) (fkNames : List (AttrName × AttrName))
    (generatedPk : PVal) (args : List (String × PVal))
    (doc : List (AttrName × PVal)) (uniqueViolation : Bool) :
    Except Err PostResult := do
  let des ← deserializeCollection naiveD attrMap m env args doc allowSub
  let attributes := defaultsFill postDefaults des.attributes
  let resource := Entity.mk m attributes [] []
  let subs ← des.linked.foldlM
    (fun (acc : List (AttrName × RelKind × Entity)) kv => do
      let rel ← match relationshipOf m kv.1 with
        | some r => Except.ok r
        | none => Except.error Err.keyError
      let target ← match env.lookup rel.2 with
        | some t => Except.ok t
        | none => Except.error Err.attributeError
      if rel.1 then
        match kv.2 with
        | PVal.pList items =>
          (items.mapM fun item =>
              match item with
              | PVal.pDict d => Except.ok (Entity.mk target d [] [])
              | _ => Except.error Err.typeError).map
            fun (es : List Entity) => acc ++ es.map (fun e => (kv.1, RelKind.onetomany, e))
        | _ => Except.error Err.typeError
      else
        match kv.2 with
        | PVal.pDict d =>
          Except.ok (acc ++ [(kv.1, RelKind.onetoone, Entity.mk target d [] [])])
        | _ => Except.error Err.typeError)
    []
  let flushed := ormFlush fkNames generatedPk resource subs
  let bf ← flushed.2.foldlM
    (fun (st : Entity × List (AttrName × RelKind × Entity)) t => do
      let pr ← backfillStep st.1 t.2.1 t.2.2
      Except.ok (pr.1, st.2 ++ [(t.1, t.2.1, pr.2)]))
    (flushed.1, [])
  if uniqueViolation then Except.error (Err.conflict "Unique constraint violated")
  else do
    let base ← serialize naiveD bf.1 none
    let data ← bf.2.foldlM
      (fun d t =>
        (serialize naiveD t.2.2 none).map fun out => assocSet d t.1 (PVal.pDict out))
      base
    Except.ok ⟨bf.1, bf.2, data⟩

/-- A parent model without a `parent_id` column (the typical schema). -/
def postParentPlain : Model where
  tablename := "parent"
  pkName := "id"
  columns := [("id", ColType.otherCol), ("name", ColType.otherCol)]
  relationships := [("children", true, "child")]
  props := []
  others := ["metadata"]

/-- A parent model that also carries a self-referential `parent_id`
column. -/
def postParentSelf : Model :=
  { postParentPlain with
    columns := [("id", ColType.otherCol), ("name", ColType.otherCol),
                ("parent_id", ColType.otherCol)] }

/-- The spec section-8 create payload. -/
def postDoc : List (AttrName × PVal) :=
  [("name", PVal.pStr "A"),
   ("children", PVal.pList [PVal.pDict [("x", PVal.pInt 1)], PVal.pDict [("x", PVal.pInt 2)]])]

/-- Claim C2 counterexample.  Creating `{"name": "A", "children": [{"x":1},
{"x":2}]}`: when the parent class has no `parent_id` attribute the back-fill
reads `getattr(resource, 'parent_id')` unguarded and the whole POST dies
with an uncaught AttributeError; when the parent does have a (self-
referential, unset) `parent_id` column, the back-fill OVERWRITES each
child's already-flushed foreign key with the parent's own `parent_id` value
— None — so after the back-fill step the children's foreign keys are None,
not the parent's primary key 1. -/
theorem C2_backfill_counterexample :
    onPost [] [] true [] postParentPlain [("child", childModel)]
      [("children", "parent_id")] (PVal.pInt 1) [] postDoc false =
      Except.error Err.attributeError ∧
    (onPost [] [] true [] postParentSelf [("child", childModel)]
        [("children", "parent_id")] (PVal.pInt 1) [] postDoc false).map
      (fun r => (r.committedRows.map (fun e => e.attrD "parent_id"),
                 r.resource.attrD "id", r.committedRows.length)) =
      Except.ok ([PVal.pNone, PVal.pNone, PVal.pNone], PVal.pInt 1, 3) ∧
    PVal.pNone ≠ PVal.pInt 1 := by
  refine ⟨rfl, rfl, ?_⟩
  intro h
  exact PVal.noConfusion h

theorem lookup_assocSet {β : Type} (l : List (AttrName × β)) (k : AttrName) (v : β) :
    (assocSet l k v).lookup k = some v := by
  induction l with
  | nil => simp [assocSet, List.lookup]
  | cons p rest ih =>
    obtain ⟨k0, v0⟩ := p
    by_cases h : k0 = k
    · subst h
      simp [assocSet, List.lookup]
    · have h3 : (k == k0) = false := beq_eq_false_iff_ne.mpr (fun hh => h hh.symm)
      simp [assocSet, h, List.lookup, ih, h3]

theorem attrD_setattr (e : Entity) (k : AttrName) (v : PVal) :
    (e.setattr k v).attrD k = v := by
  obtain ⟨m, a, r1, r2⟩ := e
  simp [Entity.setattr, Entity.attrD, Entity.attrs, lookup_assocSet]

/-- Claim C2 (amended).  For a created one-to-many sub-resource the back-fill
step copies, into each child that has an attribute named
`<parent-tablename>_id`, the PARENT's attribute of that same name — the
parent's primary-key value exactly when the parent's primary-key column is
itself named `<parent-tablename>_id`; a child without the attribute is left
untouched, a parent without it makes the request fail with an uncaught
AttributeError, and for one-to-many only this child-side direction is
back-filled (the reverse is a TODO in the source, so "both directions" holds
only for one-to-one).  On success the parent and all created sub-resources
are committed together by the final commit (rollback on any failure), so
there is no partial visibility within the model. -/
theorem C2_backfill_characterization (parent sub : Entity) (v : PVal) :
    (sub.hasattrS (parent.model.tablename ++ "_id") = true →
      parent.getattrS (parent.model.tablename ++ "_id") = Except.ok v →
      backfillStep parent RelKind.onetomany sub =
        Except.ok (parent, sub.setattr (parent.model.tablename ++ "_id") v)) ∧
    (sub.hasattrS (parent.model.tablename ++ "_id") = false →
      backfillStep parent RelKind.onetomany sub = Except.ok (parent, sub)) ∧
    (sub.hasattrS (parent.model.tablename ++ "_id") = true →
      parent.getattrS (parent.model.tablename ++ "_id") = Except.error Err.attributeError →
      backfillStep parent RelKind.onetomany sub = Except.error Err.attributeError) ∧
    (parent.model.pkName = parent.model.tablename ++ "_id" →
      parent.attrs.lookup parent.model.pkName = some v →
      sub.hasattrS (parent.model.tablename ++ "_id") = true →
      backfillStep parent RelKind.onetomany sub =
        Except.ok (parent, sub.setattr (parent.model.tablename ++ "_id") v) ∧
      (sub.setattr (parent.model.tablename ++ "_id") v).attrD
          (parent.model.tablename ++ "_id") = v) ∧
    (∀ r : PostResult,
      r.committedRows = r.resource :: r.subresourcesCreated.map (fun t => t.2.2)) := by
  refine ⟨?_, ?_, ?_, ?_, fun r => rfl⟩
  · intro hs hget
    simp [backfillStep, hs, hget, Except.map, Bind.bind, Except.bind]
  · intro hs
    simp [backfillStep, hs, Bind.bind, Except.bind]
  · intro hs hget
    simp [backfillStep, hs, hget, Except.map, Bind.bind, Except.bind]
  · intro hpk hlk hs
    have hget : parent.getattrS (parent.model.tablename ++ "_id") = Except.ok v := by
      rw [← hpk] at hs ⊢
      simp [Entity.getattrS, hlk]
    refine ⟨?_, attrD_setattr sub _ v⟩
    simp [backfillStep, hs, hget, Except.map, Bind.bind, Except.bind]

/-- A parent model whose primary key follows the `<tablename>_id` naming
convention. -/
def accountModel : Model where
  tablename := "account"
  pkName := "account_id"
  columns := [("account_id", ColType.otherCol), ("name", ColType.otherCol)]
  relationships := [("cards", true, "card")]
  props := []
  others := ["metadata"]

/-- A child model carrying the conventionally named foreign key. -/
def cardModel : Model where
  tablename := "card"
  pkName := "card_id"
  columns := [("card_id", ColType.otherCol), ("account_id", ColType.otherCol)]
  relationships := []
  props := []
  others := ["metadata"]

/-- Witness for C2: under the naming convention the back-fill sets the
child's foreign key to the parent's primary key; a child without the
attribute is untouched. -/
theorem C2_backfill_characterization_witness :
    backfillStep (Entity.mk accountModel [("account_id", PVal.pInt 9)] [] [])
        RelKind.onetomany (Entity.mk cardModel [] [] []) =
      Except.ok (Entity.mk accountModel [("account_id", PVal.pInt 9)] [] [],
        (Entity.mk cardModel [] [] []).setattr "account_id" (PVal.pInt 9)) ∧
    backfillStep (Entity.mk accountModel [("account_id", PVal.pInt 9)] [] [])
        RelKind.onetomany (Entity.mk demoModel [] [] []) =
      Except.ok (Entity.mk accountModel [("account_id", PVal.pInt 9)] [] [],
        Entity.mk demoModel [] [] []) := by
  constructor
  · exact ((C2_backfill_characterization
      (Entity.mk accountModel [("account_id", PVal.pInt 9)] [] [])
      (Entity.mk cardModel [] [] []) (PVal.pInt 9)).2.2.2.1 rfl rfl rfl).1
  · exact (C2_backfill_characterization
      (Entity.mk accountModel [("account_id", PVal.pInt 9)] [] [])
      (Entity.mk demoModel [] [] []) (PVal.pInt 9)).2.1 rfl

/-! ## on_delete (SingleResource.on_delete, resource.py 682-741) -/

/-- Embeds `SingleResource.on_delete` (682-741) with no mark_deleted hook
configured (the soft-delete path is outside every claim).  The session is
scoped per request (db_session.py is not among the sources; per spec
sections 5 and 7 every failure path rolls the transaction back), so the
returned database state equals the input on every error path.  The first
`.one()` maps zero rows to HTTPNotFound and several to
HTTPInternalServerError; the re-resolution through the generic parameter
filters and the delete precondition maps zero rows to HTTPConflict (the
entity exists but fails the precondition) and several to
HTTPInternalServerError; `resources.delete()` removes the rows matching the
second query, and an IntegrityError raised at commit — a foreign-key
violation — rolls back and surfaces HTTPConflict. -/
def onDelete (naiveD : List AttrName) (m : Model) (attrMap : List (String × String))
    (clauseSem : Clause → Entity → Bool) (precondPred : Entity → Bool)
    (db : List Entity) (args : List (String × PVal)) (params : List (String × String))
    (fkViolation : Bool) : Except Err (List (AttrName × PVal)) × List Entity :=
  match argFilterPred m attrMap args with
  | Except.error e => (Except.error e, db)
  | Except.ok pred =>
    match queryOne (db.filter pred) with
    | Except.error e => (Except.error e, db)
    | Except.ok _ =>
      match filterByParams m [] params with
      | Except.error e => (Except.error e, db)
      | Except.ok clauses =>
        let secondPred := fun e =>
          pred e && clauses.all (fun c => clauseSem c e) && precondPred e
        match db.filter secondPred with
        | [] => (Except.error (Err.conflict "Resource found but conditions violated"), db)
        | [resource] =>
          if fkViolation then
            (Except.error (Err.conflict "Other content links to this"), db)
          else
            let db2 := db.filter (fun e => ¬ secondPred e)
            (serialize naiveD resource none, db2)
        | _ => (Except.error Err.internalServerError, db)

/-- Claim C9.  For every DELETE: an initial arg-derived lookup with zero
matches fails NotFound; when it finds exactly one entity but the second
resolution through the delete precondition combined with the generic
parameter filters yields zero matches, the request fails with Conflict —
distinct from NotFound — and the database is unchanged, the located row
remaining present; and a foreign-key IntegrityError raised by the physical
delete at commit is rolled back (database unchanged) and surfaced as
Conflict, not as a server fault. -/
theorem C9_on_delete (naiveD : List AttrName) (m : Model)
    (attrMap : List (String × String)) (clauseSem : Clause → Entity → Bool)
    (precondPred : Entity → Bool) (db : List Entity) (args : List (String × PVal))
    (params : List (String × String)) (pred : Entity → Bool)
    (hpred : argFilterPred m attrMap args = Except.ok pred) :
    (db.filter pred = [] → ∀ fk,
      onDelete naiveD m attrMap clauseSem precondPred db args params fk =
        (Except.error Err.notFound, db)) ∧
    (∀ r clauses, db.filter pred = [r] →
      filterByParams m [] params = Except.ok clauses →
      db.filter (fun e => pred e && clauses.all (fun c => clauseSem c e) && precondPred e)
        = [] →
      ∀ fk,
        onDelete naiveD m attrMap clauseSem precondPred db args params fk =
          (Except.error (Err.conflict "Resource found but conditions violated"), db) ∧
        Err.conflict "Resource found but conditions violated" ≠ Err.notFound ∧
        r ∈ db) ∧
    (∀ r r2 clauses, db.filter pred = [r] →
      filterByParams m [] params = Except.ok clauses →
      db.filter (fun e => pred e && clauses.all (fun c => clauseSem c e) && precondPred e)
        = [r2] →
      onDelete naiveD m attrMap clauseSem precondPred db args params true =
        (Except.error (Err.conflict "Other content links to this"), db)) := by
  refine ⟨?_, ?_, ?_⟩
  · intro hempty fk
    simp [onDelete, hpred, hempty, queryOne]
  · intro r clauses hone hclauses hsecond fk
    refine ⟨?_, by simp, ?_⟩
    · simp [onDelete, hpred, hone, queryOne, hclauses, hsecond]
    · have : r ∈ db.filter pred := by rw [hone]; exact List.mem_singleton.mpr rfl
      exact List.mem_of_mem_filter this
  · intro r r2 clauses hone hclauses hsecond
    simp [onDelete, hpred, hone, queryOne, hclauses, hsecond]

/-- Witness for C9 on a one-row database: a missing id gives NotFound; a
failing precondition gives Conflict with the database untouched; a
foreign-key violation at commit gives the other Conflict with the database
untouched. -/
theorem C9_on_delete_witness :
    onDelete [] demoModel [] (fun _ _ => true) (fun _ => true)
      [Entity.mk demoModel [("id", PVal.pInt 1)] [] []]
      [("id", PVal.pInt 2)] [] false =
      (Except.error Err.notFound, [Entity.mk demoModel [("id", PVal.pInt 1)] [] []]) ∧
    onDelete [] demoModel [] (fun _ _ => true) (fun _ => false)
      [Entity.mk demoModel [("id", PVal.pInt 1)] [] []]
      [("id", PVal.pInt 1)] [] false =
      (Except.error (Err.conflict "Resource found but conditions violated"),
       [Entity.mk demoModel [("id", PVal.pInt 1)] [] []]) ∧
    onDelete [] demoModel [] (fun _ _ => true) (fun _ => true)
      [Entity.mk demoModel [("id", PVal.pInt 1)] [] []]
      [("id", PVal.pInt 1)] [] true =
      (Except.error (Err.conflict "Other content links to this"),
       [Entity.mk demoModel [("id", PVal.pInt 1)] [] []]) := by
  refine ⟨?_, ?_, ?_⟩
  · exact (C9_on_delete [] demoModel [] (fun _ _ => true) (fun _ => true)
      [Entity.mk demoModel [("id", PVal.pInt 1)] [] []]
      [("id", PVal.pInt 2)] []
      (fun e => true && scalarEq (e.attrD "id") (PVal.pInt 2)) rfl).1 rfl false
  · exact ((C9_on_delete [] demoModel [] (fun _ _ => true) (fun _ => false)
      [Entity.mk demoModel [("id", PVal.pInt 1)] [] []]
      [("id", PVal.pInt 1)] []
      (fun e => true && scalarEq (e.attrD "id") (PVal.pInt 1)) rfl).2.1
      (Entity.mk demoModel [("id", PVal.pInt 1)] [] []) [] rfl rfl rfl false).1
  · exact (C9_on_delete [] demoModel [] (fun _ _ => true) (fun _ => true)
      [Entity.mk demoModel [("id", PVal.pInt 1)] [] []]
      [("id", PVal.pInt 1)] []
      (fun e => true && scalarEq (e.attrD "id") (PVal.pInt 1)) rfl).2.2
      (Entity.mk demoModel [("id", PVal.pInt 1)] [] [])
      (Entity.mk demoModel [("id", PVal.pInt 1)] [] []) [] rfl rfl rfl
